import Mathlib

/-!
Verification of the penmon weather-station / FAO-56 Penman-Monteith ETo
library (src/eto.py) against its natural-language specification.

The Python module is shallowly embedded over ℝ:

* Python `float` arithmetic is idealised as exact real arithmetic, and
  Python's `round(x, n)` (binary-float, half-to-even at ties) is idealised
  as exact decimal rounding half-up (`pyround`); no verified statement
  depends on tie behaviour of a binary float.
* `None`-able observation fields are `Option ℝ`; Python truthiness of a
  float field (`if self.x:`), under which both `None` and `0.0` are falsy,
  is the proposition `truthy`.
* raising an exception is the `Except PyError` monad; a `PyError` carries
  the exception class and message.  The Python-2 idiom `raise(str(e))`
  found in the source raises, in Python 3, a
  `TypeError("exceptions must derive from BaseException")`; it is embedded
  as `raiseStr`.
* the module-level toggles `CHECK_RADIATION_RANGE` and
  `CHECK_SUNSHINE_HOURS_RANGE` are embedded at their default value `true`
  (all claims under study assume range checking enabled).
* date/datetime string parsing and calendar arithmetic are out of scope
  (per the specification); a daily entry is identified by its integer
  day-of-year, an hourly entry by a (day-of-year, hour) pair, and the
  stations' mutable `days`/`hours` dictionaries are threaded through the
  factory functions as explicit finite maps.
-/

namespace Penmon

noncomputable section
open Classical Real

/-- Python exception values, extensionally: one constructor per exception
class used by the module, carrying the message. -/
inductive PyError where
  | typeError (msg : String)
  | valueError (msg : String)
  | zeroDivisionError (msg : String)
  | exception (msg : String)
  deriving DecidableEq

/-- Message of the `TypeError` Python 3 raises when a non-exception value is
raised. -/
def raiseStrMsg : String := "exceptions must derive from BaseException"

/-- Semantics of the source's `raise(str(e))`: in Python 3, raising a `str`
raises `TypeError("exceptions must derive from BaseException")`, and the
original error `e` is lost. -/
def raiseStr (_e : PyError) : PyError := .typeError raiseStrMsg

/-- Python's `round(x, n)` idealised over ℝ: round to `n` decimal digits,
ties half-up (Mathlib's `round` is `⌊x + 1/2⌋`). -/
def pyround (n : ℕ) (x : ℝ) : ℝ := (round (x * 10 ^ n) : ℤ) / 10 ^ n

/-- Python's `math.acos`: raises `ValueError` outside `[-1, 1]`. -/
def pymath_acos (x : ℝ) : Except PyError ℝ :=
  if -1 ≤ x ∧ x ≤ 1 then .ok (Real.arccos x) else .error (.valueError "math domain error")

/-- Python's `math.sqrt`: raises `ValueError` on negative input. -/
def pymath_sqrt (x : ℝ) : Except PyError ℝ :=
  if 0 ≤ x then .ok (Real.sqrt x) else .error (.valueError "math domain error")

/-- Python's `math.log`: raises `ValueError` on non-positive input. -/
def pymath_log (x : ℝ) : Except PyError ℝ :=
  if 0 < x then .ok (Real.log x) else .error (.valueError "math domain error")

/-- Python truthiness of an optional float: `None` and `0.0` are falsy. -/
def truthy : Option ℝ → Prop
  | none => False
  | some x => x ≠ 0

@[simp] theorem truthy_none : ¬ truthy none := fun h => h

@[simp] theorem truthy_some {x : ℝ} : truthy (some x) ↔ x ≠ 0 := Iff.rfl

/-- Module-level toggle (default `True` in the source). -/
def CHECK_RADIATION_RANGE : Bool := true

/-- Module-level toggle (default `True` in the source). -/
def CHECK_SUNSHINE_HOURS_RANGE : Bool := true

/-- Climate, a mutable bag of regional defaults (`class Climate`). -/
structure Climate where
  interior_location : Bool
  coastal_location : Bool
  island_location : Bool
  arid_climate : Bool
  humid_climate : Bool
  dew_point_difference : ℝ
  average_wind_speed : ℝ
  k_rs : ℝ

/-- Default climate (`Climate.__init__`). -/
def Climate.init : Climate :=
  { interior_location := true, coastal_location := false, island_location := false,
    arid_climate := true, humid_climate := false,
    dew_point_difference := 2, average_wind_speed := 2.0, k_rs := 0.16 }

/-- Climate mutator `light_winds`. -/
def Climate.light_winds (c : Climate) : Climate := { c with average_wind_speed := 0.5 }

/-- Climate mutator `moderate_winds`. -/
def Climate.moderate_winds (c : Climate) : Climate := { c with average_wind_speed := 2 }

/-- Climate mutator `strong_winds`. -/
def Climate.strong_winds (c : Climate) : Climate := { c with average_wind_speed := 4 }

/-- Climate mutator `arid`. -/
def Climate.arid (c : Climate) : Climate :=
  { c with arid_climate := true, humid_climate := false, dew_point_difference := 2 }

/-- Climate mutator `humid`. -/
def Climate.humid (c : Climate) : Climate :=
  { c with arid_climate := false, humid_climate := true, dew_point_difference := 0 }

/-- Climate mutator `interior`. -/
def Climate.interior (c : Climate) : Climate :=
  { c with interior_location := true, coastal_location := false, island_location := false,
           k_rs := 0.16 }

/-- Climate mutator `coastal`. -/
def Climate.coastal (c : Climate) : Climate :=
  { c with interior_location := false, coastal_location := true, island_location := false,
           k_rs := 0.19 }

/-- Climate mutator `island`. -/
def Climate.island (c : Climate) : Climate :=
  { c with interior_location := false, coastal_location := false, island_location := true,
           k_rs := 0.19 }

/-- Reference crop (`class Crop`). -/
structure Crop where
  resistance_a : ℝ
  albedo : ℝ
  height : ℝ

/-- Default reference crop (`Crop.__init__` defaults). -/
def Crop.init : Crop := { resistance_a := 208, albedo := 0.23, height := 0.12 }

/-- Weather station state (`class Station`), after `__init__`.  The mutable
`days` / `hours` dictionaries are threaded separately through the factory
functions. -/
structure Station where
  latitude : ℝ
  longitude : ℝ
  altitude : ℤ
  latitude_rad : ℝ
  longitude_rad : ℝ
  timezone_longitude : ℤ
  anemometer_height : ℝ
  climate : Option Climate
  ref_crop : Crop

/-- `Station.__init__`: argument validation, then field initialisation.
Latitude/longitude/altitude type checks are rendered by the Lean types.
Note that the source discards the `timezone_longitude` argument after
validating it and stores the constant `345`. -/
def Station.init (latitude longitude : ℝ) (altitude : ℤ) (anemometer_height : ℝ)
    (timezone_longitude : ℤ) : Except PyError Station :=
  if latitude < -90.0 ∨ latitude > 90.0 then
    .error (.exception "latitude must be between -90.0 and 90.0")
  else if longitude < 0 ∨ longitude > 360.0 then
    .error (.exception "longitude in degrees West of Greenwhich.")
  else if altitude < 0 then
    .error (.exception "altitude must be above 0")
  else if timezone_longitude < 0 ∨ timezone_longitude > 359 then
    .error (.exception "timezone_longitude in degrees West of Greenwhich.")
  else
    .ok { latitude := latitude, longitude := longitude, altitude := altitude,
          latitude_rad := pyround 3 (π / 180 * latitude),
          longitude_rad := pyround 3 (π / 180 * longitude),
          timezone_longitude := 345,
          anemometer_height := anemometer_height,
          climate := some Climate.init, ref_crop := Crop.init }

/-- `Station.atmospheric_pressure` (Eq. 7). -/
def Station.atmospheric_pressure (st : Station) : ℝ :=
  pyround 2 (101.3 * (((293 - 0.0065 * (st.altitude : ℝ)) / 293) ^ (5.26 : ℝ)))

/-- Tag distinguishing the `DayEntry` and `HourEntry` subclasses of
`TimeEntry`; method overriding is rendered as dispatch on this tag. -/
inductive Res where
  | daily
  | hourly
  deriving DecidableEq

/-- A time entry (`class TimeEntry` and its two subclasses), after the
factory populated the observation fields.  `hour` is `time.hour`, meaningful
for hourly entries only. -/
structure TimeEntry where
  res : Res
  station : Station
  day_number : ℤ
  hour : ℤ := 0
  temp_min : Option ℝ := none
  temp_max : Option ℝ := none
  temp_mean : Option ℝ := none
  humidity_mean : Option ℝ := none
  humidity_min : Option ℝ := none
  humidity_max : Option ℝ := none
  wind_speed : Option ℝ := none
  radiation_s : Option ℝ := none
  temp_dew : Option ℝ := none
  temp_dry : Option ℝ := none
  temp_wet : Option ℝ := none
  temp_soil : Option ℝ := none
  logged_atmospheric_pressure : Option ℝ := none
  vapour_pressure : Option ℝ := none
  sunshine_hours : Option ℝ := none

/-- The instance constant `stephan_boltzmann_constant = 4.903e-9`. -/
def stephan_boltzmann_constant : ℝ := 4.903 * (10 : ℝ) ^ (-(9 : ℤ))

/-- `TimeEntry.wind_speed_2m` (Eq. 47 for a non-2m anemometer). -/
def TimeEntry.wind_speed_2m (e : TimeEntry) : Except PyError (Option ℝ) :=
  let fallback : Except PyError (Option ℝ) :=
    match e.station.climate with
    | some c => .ok (some c.average_wind_speed)
    | none => .ok none
  match e.wind_speed with
  | some w =>
    if w ≠ 0 then
      if e.station.anemometer_height = 2 then .ok (some w)
      else
        match pymath_log (67.8 * e.station.anemometer_height - 5.42) with
        | .error err => .error err
        | .ok l =>
          if l = 0 then .error (.zeroDivisionError "float division by zero")
          else .ok (some (pyround 1 (w * (4.87 / l))))
    else fallback
  | none => fallback

/-- `TimeEntry.dew_point`. -/
def TimeEntry.dew_point (e : TimeEntry) : Option ℝ :=
  let est : Option ℝ :=
    match e.temp_min, e.station.climate with
    | some t, some c => if t ≠ 0 then some (t - c.dew_point_difference) else none
    | _, _ => none
  match e.temp_dew with
  | some d => if d ≠ 0 then some d else est
  | none => est

/-- `TimeEntry.atmospheric_pressure`: logged pressure (if truthy) overrides
the station-derived pressure. -/
def TimeEntry.atmospheric_pressure (e : TimeEntry) : ℝ :=
  match e.logged_atmospheric_pressure with
  | some p => if p ≠ 0 then p else e.station.atmospheric_pressure
  | none => e.station.atmospheric_pressure

/-- `TimeEntry.psychrometric_constant` (Eq. 8). -/
def TimeEntry.psychrometric_constant (e : TimeEntry) : ℝ :=
  pyround 6 (0.665 * (10 : ℝ) ^ (-(3 : ℤ)) * e.atmospheric_pressure)

/-- `TimeEntry.Tmean` (Eq. 9). -/
def TimeEntry.Tmean (e : TimeEntry) : Option ℝ :=
  let est : Option ℝ :=
    match e.temp_max, e.temp_min with
    | some a, some b => if a ≠ 0 ∧ b ≠ 0 then some ((a + b) / 2) else none
    | _, _ => none
  match e.temp_mean with
  | some m => if m ≠ 0 then some m else est
  | none => est

/-- `TimeEntry.saturation_vapour_pressure` (Eq. 11). -/
def saturation_vapour_pressure (T : ℝ) : ℝ :=
  pyround 3 (0.6108 * (2.7183 : ℝ) ^ (17.27 * T / (T + 237.3)))

/-- `TimeEntry.mean_saturation_vapour_pressure` (Eq. 12). -/
def TimeEntry.mean_saturation_vapour_pressure (e : TimeEntry) : Option ℝ :=
  let est : Option ℝ :=
    match e.temp_mean with
    | some m => if m ≠ 0 then some (saturation_vapour_pressure m) else none
    | none => none
  match e.temp_max, e.temp_min with
  | some a, some b =>
    if a ≠ 0 ∧ b ≠ 0 then
      some ((saturation_vapour_pressure a + saturation_vapour_pressure b) / 2)
    else est
  | _, _ => est

/-- `TimeEntry.slope_of_saturation_vapour_pressure` (Eq. 13). -/
def slope_of_saturation_vapour_pressure (T : ℝ) : ℝ :=
  pyround 6 ((4098 * (0.6108 * (2.7183 : ℝ) ^ (17.27 * T / (T + 237.3)))) / (T + 237.3) ^ 2)

/-- `TimeEntry.actual_vapour_pressure`: the priority-ordered fallback chain
(Eqs. 15, 17, 18, 19, 14). -/
def TimeEntry.actual_vapour_pressure (e : TimeEntry) : Option ℝ :=
  let step7 : Option ℝ :=
    match e.dew_point with
    | some dp => if dp ≠ 0 then some (pyround 3 (saturation_vapour_pressure dp)) else none
    | none => none
  let step6 : Option ℝ :=
    match e.humidity_mean, e.temp_mean with
    | some hm, some tm =>
      if hm ≠ 0 ∧ tm ≠ 0 then
        some (pyround 3 ((hm / 100) * saturation_vapour_pressure tm))
      else step7
    | _, _ => step7
  let step5 : Option ℝ :=
    match e.humidity_mean, e.temp_max, e.temp_min with
    | some hm, some a, some b =>
      if hm ≠ 0 ∧ a ≠ 0 ∧ b ≠ 0 then
        some (pyround 3 ((hm / 100) *
          ((saturation_vapour_pressure a + saturation_vapour_pressure b) / 2)))
      else step6
    | _, _, _ => step6
  let step4 : Option ℝ :=
    match e.humidity_max, e.temp_min with
    | some hmax, some b =>
      if hmax ≠ 0 ∧ b ≠ 0 then
        some (pyround 3 (saturation_vapour_pressure b * (hmax / 100)))
      else step5
    | _, _ => step5
  let step3 : Option ℝ :=
    match e.humidity_max, e.humidity_min, e.temp_max, e.temp_min with
    | some hmax, some hmin, some a, some b =>
      if hmax ≠ 0 ∧ hmin ≠ 0 ∧ a ≠ 0 ∧ b ≠ 0 then
        some (pyround 3 ((saturation_vapour_pressure b * (hmax / 100) +
          saturation_vapour_pressure a * (hmin / 100)) / 2))
      else step4
    | _, _, _, _ => step4
  let step2 : Option ℝ :=
    match e.temp_dry, e.temp_wet with
    | some td, some tw =>
      if td ≠ 0 ∧ tw ≠ 0 then
        some (pyround 3 (saturation_vapour_pressure tw - e.psychrometric_constant * (td - tw)))
      else step3
    | _, _ => step3
  match e.vapour_pressure with
  | some vp => if vp ≠ 0 then some vp else step2
  | none => step2

/-- `TimeEntry.vapour_pressure_deficit`; subtracting a missing operand is a
Python `TypeError`. -/
def TimeEntry.vapour_pressure_deficit (e : TimeEntry) : Except PyError ℝ :=
  match e.mean_saturation_vapour_pressure, e.actual_vapour_pressure with
  | some vp, some avp => .ok (pyround 3 (vp - avp))
  | _, _ => .error (.typeError "unsupported operand type for subtraction: NoneType")

/-- `TimeEntry.relative_sun_distance` (Eq. 23). -/
def TimeEntry.relative_sun_distance (e : TimeEntry) : ℝ :=
  pyround 3 (1 + 0.033 * Real.cos (2 * π / 365 * (e.day_number : ℝ)))

/-- `TimeEntry.solar_declination` (Eq. 24). -/
def TimeEntry.solar_declination (e : TimeEntry) : ℝ :=
  pyround 3 (0.409 * Real.sin (2 * π / 365 * (e.day_number : ℝ) - 1.39))

/-- `TimeEntry.sunset_hour_angle` (Eq. 25); `math.acos` raises outside
`[-1, 1]`. -/
def TimeEntry.sunset_hour_angle (e : TimeEntry) : Except PyError ℝ :=
  (pymath_acos (-1 * Real.tan e.station.latitude_rad * Real.tan e.solar_declination)).map
    (pyround 3)

/-- `TimeEntry.R_a` for daily periods (Eq. 21). -/
def TimeEntry.R_a_daily (e : TimeEntry) : Except PyError ℝ :=
  (e.sunset_hour_angle).map fun ws =>
    pyround 1 (24 * 60 / π * 0.0820 * e.relative_sun_distance *
      (ws * Real.sin e.station.latitude_rad * Real.sin e.solar_declination +
        Real.cos e.station.latitude_rad * Real.cos e.solar_declination * Real.sin ws))

/-- `HourEntry.solar_time_angle`. -/
def TimeEntry.solar_time_angle (e : TimeEntry) : ℝ :=
  let b := 2 * π * ((e.day_number : ℝ) - 81) / 364
  let season_correction := 0.1645 * Real.sin (2 * b) - 0.1255 * Real.cos b -
    0.025 * Real.sin b
  π / 12 * (((e.hour : ℝ) + 0.5 +
    0.06667 * ((e.station.timezone_longitude : ℝ) - e.station.longitude) +
    season_correction) - 12)

/-- `HourEntry.R_a`: the hourly override, integrating over a one-hour
window; `0` outside daylight. -/
def TimeEntry.R_a_hourly (e : TimeEntry) : Except PyError ℝ :=
  match e.sunset_hour_angle with
  | .error err => .error err
  | .ok ws =>
    let w := e.solar_time_angle
    if w < -ws ∨ w > ws then .ok 0
    else
      let w1 := w - π * 1 / 24
      let w2 := w + π * 1 / 24
      let d := e.relative_sun_distance
      let delta := e.station.latitude_rad
      let phi := e.solar_declination
      .ok (pyround 3 (12 * 60 / π * 0.0820 * d *
        ((w2 - w1) * Real.sin phi * Real.sin delta +
          Real.cos phi * Real.cos delta * (Real.sin w2 - Real.sin w1))))

/-- `R_a`, dispatched on the entry's resolution (virtual method). -/
def TimeEntry.R_a (e : TimeEntry) : Except PyError ℝ :=
  match e.res with
  | .daily => e.R_a_daily
  | .hourly => e.R_a_hourly

/-- `TimeEntry.daylight_hours` (Eq. 34). -/
def TimeEntry.daylight_hours (e : TimeEntry) : Except PyError ℝ :=
  (e.sunset_hour_angle).map fun ws => pyround 1 (24 / π * ws)

/-- `TimeEntry.R_so` (Eqs. 36/37): clear-sky radiation; branches on
altitude below / at-or-above 100 m. -/
def TimeEntry.R_so (e : TimeEntry) : Except PyError ℝ :=
  (e.R_a).map fun ra =>
    if e.station.altitude < 100 then pyround 1 ((0.25 + 0.50) * ra)
    else pyround 1 ((0.75 + 2 * (10 : ℝ) ^ (-(5 : ℤ)) * (e.station.altitude : ℝ)) * ra)

/-- `DayEntry.solar_radiation`: logged value (validated against the
clear-sky ceiling), else the estimation fallback chain (Eqs. 51, 50, 35). -/
def TimeEntry.solar_radiation_day (e : TimeEntry) : Except PyError ℝ :=
  let angstrom : ℝ → Except PyError ℝ := fun n =>
    if n < 0 then .error (.valueError "Observed daylight hours cannot be less than 0")
    else
      match e.daylight_hours with
      | .error err => .error err
      | .ok N0 =>
        if n > N0 ∧ CHECK_SUNSHINE_HOURS_RANGE then
          .error (.valueError "Daylight hours out of range")
        else
          match e.R_a with
          | .error err => .error err
          | .ok ra => .ok (pyround 1 ((0.25 + 0.50 * n / N0) * ra))
  let est : Except PyError ℝ :=
    match e.sunshine_hours with
    | some n0 => angstrom n0
    | none =>
      if (match e.station.climate with
          | some c => c.island_location
          | none => False) ∧ e.station.altitude < 100 then
        (e.R_a).map fun ra => pyround 1 (0.7 * ra - 4)
      else
        match e.station.climate, e.temp_min, e.temp_max with
        | some c, some tmin, some tmax =>
          if tmin ≠ 0 ∧ tmax ≠ 0 then
            match e.R_a with
            | .error err => .error err
            | .ok ra =>
              match pymath_sqrt (tmax - tmin) with
              | .error err => .error err
              | .ok s =>
                .ok (pyround 1 ((if c.coastal_location then (0.19 : ℝ) else 0.16) * s * ra))
          else
            match e.daylight_hours with
            | .error err => .error err
            | .ok N0 => angstrom N0
        | _, _, _ =>
          match e.daylight_hours with
          | .error err => .error err
          | .ok N0 => angstrom N0
  match e.radiation_s with
  | some r =>
    if r ≠ 0 then
      if CHECK_RADIATION_RANGE then
        match e.R_so with
        | .error err => .error err
        | .ok rso =>
          if r > rso then .error (.valueError "Solar radiation out ot range")
          else .ok r
      else .ok r
    else est
  | none => est

/-- `HourEntry.solar_radiation`: logged value only, validated against the
clear-sky ceiling with a 5 percent band; `MissingDataError` if unset. -/
def TimeEntry.solar_radiation_hour (e : TimeEntry) : Except PyError ℝ :=
  match e.radiation_s with
  | some r =>
    if CHECK_RADIATION_RANGE then
      match e.R_so with
      | .error err => .error err
      | .ok rso =>
        if rso = 0 ∧ r > 0.05 then .error (.valueError "Lunar radiation out ot range")
        else if rso > 0 ∧ (r - rso) / rso > 0.05 then
          .error (.valueError "Solar radiation out ot range")
        else .ok r
    else .ok r
  | none => .error (.exception "Cannot calculate eto(): radiation_s (Solar radiation) is missing")

/-- `solar_radiation`, dispatched on the entry's resolution. -/
def TimeEntry.solar_radiation (e : TimeEntry) : Except PyError ℝ :=
  match e.res with
  | .daily => e.solar_radiation_day
  | .hourly => e.solar_radiation_hour

/-- `TimeEntry.R_ns` (Eq. 38). -/
def TimeEntry.R_ns (e : TimeEntry) : Except PyError ℝ :=
  (e.solar_radiation).map fun rs => pyround 1 ((1 - e.station.ref_crop.albedo) * rs)

/-- `TimeEntry.R_nl` (Eq. 39), the daily form, requiring both temperature
extremes (by truthiness). -/
def TimeEntry.R_nl_daily (e : TimeEntry) : Except PyError ℝ :=
  match e.temp_max, e.temp_min with
  | some tmax, some tmin =>
    if tmax ≠ 0 ∧ tmin ≠ 0 then
      let TmaxK := tmax + 273.16
      let TminK := tmin + 273.16
      match e.solar_radiation with
      | .error err => .error err
      | .ok rs =>
        match e.R_so with
        | .error err => .error err
        | .ok rso =>
          match e.actual_vapour_pressure with
          | none => .error (.typeError "math.sqrt expects a number, not NoneType")
          | some ea =>
            match pymath_sqrt ea with
            | .error err => .error err
            | .ok sq =>
              if rso = 0 then .error (.zeroDivisionError "float division by zero")
              else .ok (pyround 1 (stephan_boltzmann_constant *
                ((TmaxK ^ 4 + TminK ^ 4) / 2) * (0.34 - 0.14 * sq) *
                (1.35 * (rs / rso) - 0.35)))
    else .error (.exception "Net longwave radiation cannot be calculated without min/max temperature")
  | _, _ =>
    .error (.exception "Net longwave radiation cannot be calculated without min/max temperature")

/-- `HourEntry.R_l_outgoing`. -/
def TimeEntry.R_l_outgoing (e : TimeEntry) : Except PyError ℝ :=
  match e.temp_soil with
  | some ts =>
    .ok (pyround 1 (1 * (stephan_boltzmann_constant / 24) * (ts + 273.16) ^ 4))
  | none => .error (.typeError "unsupported operand type for +: NoneType and float")

/-- The local `clear_sky_emissivity` helper of `HourEntry.R_l_incoming`. -/
def clear_sky_emissivity (T : ℝ) : ℝ :=
  pyround 3 (8.733 * (10 : ℝ) ^ (-(3 : ℤ)) * (T + 273.16) ^ (0.788 : ℝ))

/-- `HourEntry.R_l_incoming`: cloud fraction from `Rs/Rso`, clamped to
`[0, 1]`, defaulting to `0.5` at night (`R_so = 0`). -/
def TimeEntry.R_l_incoming (e : TimeEntry) : Except PyError ℝ :=
  match e.R_so with
  | .error err => .error err
  | .ok rso =>
    let fres : Except PyError ℝ :=
      if rso = 0 then .ok 0.5
      else
        match e.radiation_s with
        | none => .error (.typeError "unsupported operand type for /: NoneType and float")
        | some r =>
          let radfrac := r / rso
          let f0 := 1 - radfrac
          .ok (if f0 < 0 then 0 else if f0 > 1 then 1 else f0)
    match fres with
    | .error err => .error err
    | .ok f =>
      match e.Tmean with
      | none => .error (.typeError "unsupported operand type for +: NoneType and float")
      | some T =>
        let eps0 := clear_sky_emissivity T
        let epsStar := eps0 * (1 + 0.26 * f)
        .ok (pyround 1 (epsStar * (stephan_boltzmann_constant / 24) * (T + 273.16) ^ 4))

/-- `HourEntry.R_nl`: the hourly override, requiring soil temperature (an
explicit None check in the source). -/
def TimeEntry.R_nl_hourly (e : TimeEntry) : Except PyError ℝ :=
  match e.temp_soil with
  | none =>
    .error (.exception "Net longwave radiation cannot be calculated without soil temperature")
  | some _ =>
    match e.R_l_outgoing with
    | .error err => .error err
    | .ok rol =>
      match e.R_l_incoming with
      | .error err => .error err
      | .ok ril => .ok (rol - ril)

/-- `R_nl`, dispatched on the entry's resolution. -/
def TimeEntry.R_nl (e : TimeEntry) : Except PyError ℝ :=
  match e.res with
  | .daily => e.R_nl_daily
  | .hourly => e.R_nl_hourly

/-- `TimeEntry.net_radiation` (Eq. 40): net shortwave minus net longwave.
The source wraps the `R_nl` call in `try/except` and re-raises with
`raise(str(e))`, which in Python 3 replaces the error (see `raiseStr`). -/
def TimeEntry.net_radiation (e : TimeEntry) : Except PyError ℝ :=
  match e.R_ns with
  | .error err => .error err
  | .ok ns =>
    match e.R_nl with
    | .error err => .error (raiseStr err)
    | .ok nl => .ok (pyround 1 (ns - nl))

/-- `soil_heat_flux`: 0 at daily resolution; the hourly override compares
`radiation_s` (a `TypeError` when `None`) against 0.05. -/
def TimeEntry.soil_heat_flux (e : TimeEntry) : Except PyError ℝ :=
  match e.res with
  | .daily => .ok 0.00
  | .hourly =>
    match e.radiation_s with
    | none => .error (.typeError "not supported between instances of NoneType and float")
    | some r =>
      match e.net_radiation with
      | .error err => .error err
      | .ok nr => .ok (if r < 0.05 then 0.5 * nr else 0.1 * nr)

/-- `air_conductance_coefficient`: 900 daily, 37 hourly. -/
def TimeEntry.air_conductance_coefficient (e : TimeEntry) : ℝ :=
  match e.res with
  | .daily => 900
  | .hourly => 37

/-- `TimeEntry.eto_hargreaves` (Eq. 52); dereferences the temperature
extremes without a presence check (a `TypeError` when absent), and a
negative difference under `** 0.5` produces a complex number on which the
final `round` raises a `TypeError`. -/
def TimeEntry.eto_hargreaves (e : TimeEntry) : Except PyError ℝ :=
  match e.temp_max, e.temp_min with
  | some tmax, some tmin =>
    match e.R_a with
    | .error err => .error err
    | .ok ra =>
      if tmax - tmin < 0 then
        .error (.typeError "type complex does not define a rounding method")
      else
        .ok (pyround 2 (0.0023 * ((tmax + tmin) / 2 + 17.8) *
          (tmax - tmin) ^ (0.5 : ℝ) * ra))
  | _, _ => .error (.typeError "unsupported operand type for +: NoneType")

/-- `TimeEntry.eto` (Eq. 6): the final assembly.  The `try/except` around
`net_radiation` re-raises with `raise(str(e))` (see `raiseStr`). -/
def TimeEntry.eto (e : TimeEntry) : Except PyError ℝ :=
  match e.wind_speed_2m with
  | .error err => .error err
  | .ok w =>
    if ¬ truthy w then e.eto_hargreaves
    else
      match e.Tmean with
      | none =>
        .error (.exception "Cannot calculate eto(): temp_mean (mean temperature) is missing")
      | some tmean =>
        match e.net_radiation with
        | .error err => .error (raiseStr err)
        | .ok nr =>
          let slope := slope_of_saturation_vapour_pressure tmean
          match e.soil_heat_flux with
          | .error err => .error err
          | .ok G =>
            match w with
            | none => .error (.exception "unreachable: wind was truthy")
            | some u2m =>
              match e.vapour_pressure_deficit with
              | .error err => .error err
              | .ok vpd =>
                let nom := 0.408 * slope * (nr - G) +
                  e.psychrometric_constant * (e.air_conductance_coefficient / (tmean + 273)) *
                    u2m * vpd
                if nom < 0 then .ok 0
                else .ok (pyround 2 (nom /
                  (slope + e.psychrometric_constant * (1 + 0.34 * u2m))))

/-- Observations accepted by `Station.day_entry`. -/
structure DayObs where
  temp_min : Option ℝ := none
  temp_max : Option ℝ := none
  temp_mean : Option ℝ := none
  wind_speed : Option ℝ := none
  humidity_mean : Option ℝ := none
  radiation_s : Option ℝ := none
  sunshine_hours : Option ℝ := none

/-- The station's `days` registry. -/
def DayMap := ℤ → Option TimeEntry

/-- `Station.day_entry` for an integer day number (date parsing is out of
scope).  Mirrors the source faithfully: the entry object is inserted into
the registry before the radiation and sunshine validations run, and the
inserted object is mutated in place, so on a validation failure the
registry retains the partially populated entry. -/
def Station.day_entry (st : Station) (days : DayMap) (day_number : ℤ) (obs : DayObs) :
    DayMap × Except PyError TimeEntry :=
  if ¬ (day_number ≥ 1 ∧ day_number ≤ 366) then
    (days, .error (.exception "day_number must be between in the range 1-366"))
  else
    let e0 : TimeEntry :=
      { res := .daily, station := st, day_number := day_number,
        temp_min := obs.temp_min, temp_max := obs.temp_max, temp_mean := obs.temp_mean,
        humidity_mean := obs.humidity_mean, wind_speed := obs.wind_speed }
    let store : TimeEntry → DayMap := fun e j => if j = day_number then some e else days j
    let rstep : TimeEntry × Option PyError :=
      match obs.radiation_s with
      | some r =>
        if r ≠ 0 then
          if CHECK_RADIATION_RANGE then
            match e0.R_so with
            | .error err => (e0, some err)
            | .ok rso =>
              if r ≤ rso then ({ e0 with radiation_s := some r }, none)
              else (e0, some (.valueError "Raditaion out of range"))
          else ({ e0 with radiation_s := some r }, none)
        else (e0, none)
      | none => (e0, none)
    match rstep with
    | (e1, some err) => (store e1, .error err)
    | (e1, none) =>
      let sstep : TimeEntry × Option PyError :=
        match obs.sunshine_hours with
        | some sh =>
          if sh ≠ 0 then
            if CHECK_SUNSHINE_HOURS_RANGE then
              match e1.daylight_hours with
              | .error err => (e1, some err)
              | .ok N0 =>
                if sh ≤ N0 then ({ e1 with sunshine_hours := some sh }, none)
                else (e1, some (.valueError "Sunshine hours out of range"))
            else ({ e1 with sunshine_hours := some sh }, none)
          else (e1, none)
        | none => (e1, none)
      match sstep with
      | (e2, some err) => (store e2, .error err)
      | (e2, none) => (store e2, .ok e2)

/-- Observations accepted by `Station.hour_entry`. -/
structure HourObs where
  temp_min : Option ℝ := none
  temp_max : Option ℝ := none
  temp_mean : Option ℝ := none
  wind_speed : Option ℝ := none
  humidity_mean : Option ℝ := none
  radiation_s : Option ℝ := none

/-- An hour, identified by day-of-year and hour-of-day (datetime parsing
and the epoch-seconds registry key are calendar arithmetic, out of scope;
the key is rendered as the pair itself, an injective image of
`int(timestamp/3600)` within a year). -/
structure HourTime where
  day_number : ℤ
  hour : ℤ

/-- The station's `hours` registry. -/
def HourMap := ℤ × ℤ → Option TimeEntry

/-- `Station.hour_entry`.  Mirrors the source faithfully: the entry is
inserted into the registry before the radiation validation, and the
radiation condition is `radiation_s - R_so > 0.05 * R_so` for STORING the
value, raising `ValueError` otherwise. -/
def Station.hour_entry (st : Station) (hours : HourMap) (t : HourTime) (obs : HourObs) :
    HourMap × Except PyError TimeEntry :=
  let e0 : TimeEntry :=
    { res := .hourly, station := st, day_number := t.day_number, hour := t.hour,
      temp_min := obs.temp_min, temp_max := obs.temp_max, temp_mean := obs.temp_mean,
      humidity_mean := obs.humidity_mean, wind_speed := obs.wind_speed }
  let store : TimeEntry → HourMap := fun e k => if k = (t.day_number, t.hour) then some e else hours k
  match obs.radiation_s with
  | some r =>
    if r ≠ 0 then
      if CHECK_RADIATION_RANGE then
        match e0.R_so with
        | .error err => (store e0, .error err)
        | .ok rso =>
          if r - rso > 0.05 * rso then
            (store { e0 with radiation_s := some r }, .ok { e0 with radiation_s := some r })
          else (store e0, .error (.valueError "Radiation out of range"))
      else (store { e0 with radiation_s := some r }, .ok { e0 with radiation_s := some r })
    else (store e0, .ok e0)
  | none => (store e0, .ok e0)

/-! ## Numeric helper lemmas -/

/-- Compute `pyround` from an integer bracketing of `x * 10^n + 1/2`. -/
theorem pyround_eq {n : ℕ} {x : ℝ} {m : ℤ} (h1 : (m : ℝ) ≤ x * 10 ^ n + 1 / 2)
    (h2 : x * 10 ^ n + 1 / 2 < (m : ℝ) + 1) : pyround n x = (m : ℝ) / 10 ^ n := by
  have hfloor : round (x * 10 ^ n) = m := by
    rw [round_eq, Int.floor_eq_iff]
    exact ⟨h1, h2⟩
  rw [pyround, hfloor]

/-- The rounding error of `pyround` is at most half an ulp. -/
theorem pyround_abs_sub (n : ℕ) (x : ℝ) : |pyround n x - x| ≤ 1 / 2 / 10 ^ n := by
  have h10 : (0 : ℝ) < 10 ^ n := by positivity
  have h := abs_sub_round (x * 10 ^ n)
  have key : pyround n x - x = ((round (x * 10 ^ n) : ℤ) - x * 10 ^ n) / 10 ^ n := by
    rw [pyround]
    field_simp
    ring
  rw [key, abs_div, abs_of_pos h10]
  rw [abs_sub_comm]
  exact div_le_div_of_nonneg_right h h10.le

/-- Monotonicity of `pyround`. -/
theorem pyround_mono {n : ℕ} {x y : ℝ} (h : x ≤ y) : pyround n x ≤ pyround n y := by
  have h10 : (0 : ℝ) < 10 ^ n := by positivity
  have hr : round (x * 10 ^ n) ≤ round (y * 10 ^ n) := by
    rw [round_eq, round_eq]
    exact Int.floor_mono (by nlinarith)
  exact div_le_div_of_nonneg_right (by exact_mod_cast hr) h10.le

/-- `pyround` of a nearly-nonnegative number is nonnegative. -/
theorem pyround_nonneg {n : ℕ} {x : ℝ} (h : -(1 / 2) ≤ x * 10 ^ n) : 0 ≤ pyround n x := by
  have h10 : (0 : ℝ) < 10 ^ n := by positivity
  have hr : (0 : ℤ) ≤ round (x * 10 ^ n) := by
    rw [round_eq]
    have : (0 : ℤ) ≤ ⌊(0 : ℝ)⌋ := by simp
    exact le_trans this (Int.floor_mono (by linarith))
  have : (0 : ℝ) ≤ (round (x * 10 ^ n) : ℤ) := by exact_mod_cast hr
  rw [pyround]
  positivity

/-- Elementary bound `|sin x| ≤ |x|`. -/
theorem abs_sin_le_abs (x : ℝ) : |Real.sin x| ≤ |x| := by
  rcases le_total 0 x with hx | hx
  · rw [abs_of_nonneg hx]
    rcases le_total x 1 with hx1 | hx1
    · have hs : 0 ≤ Real.sin x :=
        Real.sin_nonneg_of_nonneg_of_le_pi hx (by linarith [Real.pi_gt_three])
      rw [abs_of_nonneg hs]
      rcases eq_or_lt_of_le hx with h | h
      · simp [← h]
      · exact le_of_lt (Real.sin_lt h)
    · exact le_trans (Real.abs_sin_le_one x) hx1
  · have := abs_neg x
    rcases le_total (-x) 1 with hx1 | hx1
    · have hs : 0 ≤ Real.sin (-x) :=
        Real.sin_nonneg_of_nonneg_of_le_pi (by linarith) (by linarith [Real.pi_gt_three])
      rw [← abs_neg x, ← abs_neg (Real.sin x), ← Real.sin_neg]
      rw [abs_of_nonneg hs, abs_of_nonneg (by linarith : (0:ℝ) ≤ -x)]
      rcases eq_or_lt_of_le (by linarith : (0:ℝ) ≤ -x) with h | h
      · simp [← h]
      · exact le_of_lt (Real.sin_lt h)
    · rw [← abs_neg x, abs_of_nonneg (by linarith : (0:ℝ) ≤ -x)]
      exact le_trans (Real.abs_sin_le_one x) hx1

/-- Lipschitz bound for the sine. -/
theorem abs_sin_sub_sin_le (a b : ℝ) : |Real.sin a - Real.sin b| ≤ |a - b| := by
  rw [Real.sin_sub_sin]
  have h1 : |Real.sin ((a - b) / 2)| ≤ |(a - b) / 2| := abs_sin_le_abs _
  have h2 : |Real.cos ((a + b) / 2)| ≤ 1 := Real.abs_cos_le_one _
  calc |2 * Real.sin ((a - b) / 2) * Real.cos ((a + b) / 2)|
      = 2 * |Real.sin ((a - b) / 2)| * |Real.cos ((a + b) / 2)| := by
        rw [abs_mul, abs_mul]
        norm_num
    _ ≤ 2 * |(a - b) / 2| * 1 := by
        apply mul_le_mul _ h2 (abs_nonneg _) (by positivity)
        exact mul_le_mul_of_nonneg_left h1 (by norm_num)
    _ = |a - b| := by
        rw [abs_div, abs_two]
        ring

/-- Lipschitz bound for the cosine. -/
theorem abs_cos_sub_cos_le (a b : ℝ) : |Real.cos a - Real.cos b| ≤ |a - b| := by
  rw [Real.cos_sub_cos]
  have h1 : |Real.sin ((a - b) / 2)| ≤ |(a - b) / 2| := abs_sin_le_abs _
  have h2 : |Real.sin ((a + b) / 2)| ≤ 1 := Real.abs_sin_le_one _
  calc |-2 * Real.sin ((a + b) / 2) * Real.sin ((a - b) / 2)|
      = 2 * |Real.sin ((a + b) / 2)| * |Real.sin ((a - b) / 2)| := by
        rw [abs_mul, abs_mul]
        norm_num
    _ ≤ 2 * 1 * |(a - b) / 2| := by
        apply mul_le_mul _ h1 (abs_nonneg _) (by positivity)
        exact mul_le_mul_of_nonneg_left h2 (by norm_num)
    _ = |a - b| := by
        rw [abs_div, abs_two]
        ring

/-- Quadratic lower bound of the cosine, valid everywhere. -/
theorem one_sub_sq_div_two_le_cos (x : ℝ) : 1 - x ^ 2 / 2 ≤ Real.cos x := by
  have hids := Real.sin_sq_add_cos_sq (x / 2)
  have hcos : Real.cos x = 1 - 2 * Real.sin (x / 2) ^ 2 := by
    have h2 := Real.cos_sq (x / 2)
    have hx2 : 2 * (x / 2) = x := by ring
    rw [hx2] at h2
    nlinarith [h2, hids]
  have hsin : Real.sin (x / 2) ^ 2 ≤ (x / 2) ^ 2 := by
    have := abs_sin_le_abs (x / 2)
    calc Real.sin (x / 2) ^ 2 = |Real.sin (x / 2)| ^ 2 := (sq_abs _).symm
      _ ≤ |x / 2| ^ 2 := by
          apply pow_le_pow_left₀ (abs_nonneg _) this
      _ = (x / 2) ^ 2 := sq_abs _
  nlinarith [hcos, hsin]

/-- For `0 ≤ x`, `sin x ≤ x`. -/
theorem sin_le_self {x : ℝ} (h : 0 ≤ x) : Real.sin x ≤ x := by
  rcases eq_or_lt_of_le h with h0 | h0
  · simp [← h0]
  · exact le_of_lt (Real.sin_lt h0)

/-- Polynomial lower bound for the sine of a small nonnegative number. -/
theorem sin_q_lower {q : ℝ} (h0 : 0 ≤ q) (h1 : q ≤ 1) :
    q - q ^ 3 / 6 - q ^ 4 * (5 / 96) ≤ Real.sin q := by
  have hb := Real.sin_bound (x := q) (by rwa [abs_of_nonneg h0])
  rw [abs_of_nonneg h0] at hb
  have := abs_le.mp hb
  linarith [this.1]

/-- Polynomial upper bound for the cosine of a small number. -/
theorem cos_q_upper {q : ℝ} (h1 : |q| ≤ 1) :
    Real.cos q ≤ 1 - q ^ 2 / 2 + |q| ^ 4 * (5 / 96) := by
  have hb := Real.cos_bound h1
  have := abs_le.mp hb
  linarith [this.2]

/-- Monotonicity of the sine on the principal interval. -/
theorem sin_le_sin_aux {a b : ℝ} (ha : -(π / 2) ≤ a) (hb : b ≤ π / 2) (hab : a ≤ b) :
    Real.sin a ≤ Real.sin b := by
  rcases eq_or_lt_of_le hab with h | h
  · rw [h]
  · exact le_of_lt (Real.sin_lt_sin_of_lt_of_le_pi_div_two ha hb h)

/-- Evaluate `pyround` to an explicit value from an integer bracketing. -/
theorem pyround_of_rat {n : ℕ} {q v : ℝ} {m : ℤ} (h1 : (m : ℝ) ≤ q * 10 ^ n + 1 / 2)
    (h2 : q * 10 ^ n + 1 / 2 < (m : ℝ) + 1) (hv : (m : ℝ) / 10 ^ n = v) : pyround n q = v := by
  rw [pyround_eq h1 h2, hv]

/-! ## Concrete evaluations at an equatorial station, day of year 81

These exact values of the astronomic quantities are shared by the
witnesses and counterexamples below. -/

/-- An equatorial station: latitude 0.0, longitude 345.0 °W, altitude
100 m, anemometer at 2 m; exactly the record `Station.init 0.0 345.0 100 2
345` produces (`station0_init`). -/
def station0 : Station :=
  { latitude := 0.0, longitude := 345.0, altitude := 100,
    latitude_rad := 0,
    longitude_rad := pyround 3 (π / 180 * 345.0),
    timezone_longitude := 345, anemometer_height := 2,
    climate := some Climate.init, ref_crop := Crop.init }

theorem station0_init : Station.init 0.0 345.0 100 2 345 = .ok station0 := by
  rw [Station.init]
  have h0 : pyround 3 ((0 : ℝ)) = 0 := by
    norm_num [pyround]
  norm_num [station0, h0]

/-- Solar declination of day 81 rounds to 0.002. -/
theorem decl81 {e : TimeEntry} (hday : e.day_number = 81) :
    e.solar_declination = 0.002 := by
  rw [TimeEntry.solar_declination, hday]
  push_cast
  have hπl := Real.pi_gt_d6
  have hπu := Real.pi_lt_d6
  obtain ⟨A, hA⟩ : ∃ A : ℝ, A = 2 * π / 365 * 81 - 1.39 := ⟨_, rfl⟩
  rw [← hA]
  have hA1 : (0.004350 : ℝ) ≤ A := by rw [hA]; nlinarith
  have hA2 : A ≤ 0.004351 := by rw [hA]; nlinarith
  have hs1 : (0.004349 : ℝ) ≤ Real.sin A := by
    have hmono : Real.sin 0.004350 ≤ Real.sin A :=
      sin_le_sin_aux (by nlinarith) (by nlinarith) hA1
    have hq := sin_q_lower (q := 0.004350) (by norm_num) (by norm_num)
    nlinarith
  have hs2 : Real.sin A ≤ 0.004351 := le_trans (sin_le_self (by linarith)) hA2
  have hm := pyround_eq (n := 3) (x := 0.409 * Real.sin A) (m := 2)
    (by push_cast; nlinarith) (by push_cast; nlinarith)
  rw [hm]
  norm_num

/-- Relative sun distance of day 81 rounds to 1.006. -/
theorem rsd81 {e : TimeEntry} (hday : e.day_number = 81) :
    e.relative_sun_distance = 1.006 := by
  rw [TimeEntry.relative_sun_distance, hday]
  push_cast
  have hπl := Real.pi_gt_d6
  have hπu := Real.pi_lt_d6
  set B : ℝ := 2 * π / 365 * 81 with hB
  have hB1 : (1.3943504 : ℝ) ≤ B := by rw [hB]; nlinarith
  have hB2 : B ≤ 1.3943509 := by rw [hB]; nlinarith
  have hcos : Real.cos B = Real.sin (π / 2 - B) := (Real.sin_pi_div_two_sub B).symm
  have ht1 : (0.1764451 : ℝ) ≤ π / 2 - B := by nlinarith
  have ht2 : π / 2 - B ≤ 0.1764461 := by nlinarith
  have hs1 : (0.175479 : ℝ) ≤ Real.sin (π / 2 - B) := by
    have hmono : Real.sin 0.1764451 ≤ Real.sin (π / 2 - B) :=
      sin_le_sin_aux (by nlinarith) (by nlinarith) ht1
    have hq := sin_q_lower (q := 0.1764451) (by norm_num) (by norm_num)
    nlinarith
  have hs2 : Real.sin (π / 2 - B) ≤ 0.1764461 :=
    le_trans (sin_le_self (by nlinarith)) ht2
  rw [hcos] at *
  have hm := pyround_eq (n := 3) (x := 1 + 0.033 * Real.sin (π / 2 - B)) (m := 1006)
    (by push_cast; nlinarith) (by push_cast; nlinarith)
  rw [hm]
  norm_num

/-- Sunset hour angle at the equator, day 81: `acos 0` rounds to 1.571. -/
theorem sunset81 {e : TimeEntry} (hlat : e.station.latitude_rad = 0)
    (hday : e.day_number = 81) : e.sunset_hour_angle = .ok 1.571 := by
  rw [TimeEntry.sunset_hour_angle, hlat, Real.tan_zero]
  have harg : (-1 : ℝ) * 0 * Real.tan (TimeEntry.solar_declination e) = 0 := by ring
  rw [harg]
  have hac : pymath_acos 0 = .ok (π / 2) := by
    rw [pymath_acos, if_pos (by norm_num)]
    rw [Real.arccos_zero]
  rw [hac]
  have hπl := Real.pi_gt_d6
  have hπu := Real.pi_lt_d6
  have hm := pyround_eq (n := 3) (x := π / 2) (m := 1571)
    (by push_cast; nlinarith) (by push_cast; nlinarith)
  show Except.ok (pyround 3 (π / 2)) = _
  rw [hm]
  norm_num

/-- Daylight hours at the equator, day 81: 12.0. -/
theorem daylight81 {e : TimeEntry} (hlat : e.station.latitude_rad = 0)
    (hday : e.day_number = 81) : e.daylight_hours = .ok 12.0 := by
  rw [TimeEntry.daylight_hours, sunset81 hlat hday]
  have hπl := Real.pi_gt_d6
  have hπu := Real.pi_lt_d6
  have hπ0 := Real.pi_pos
  have hval : (11.95 : ℝ) ≤ 24 / π * 1.571 ∧ (24 / π * 1.571 : ℝ) < 12.05 := by
    constructor
    · rw [div_mul_eq_mul_div, le_div_iff hπ0]
      nlinarith
    · rw [div_mul_eq_mul_div, div_lt_iff hπ0]
      nlinarith
  have hm := pyround_eq (n := 1) (x := 24 / π * 1.571) (m := 120)
    (by push_cast; nlinarith [hval.1, hval.2]) (by push_cast; nlinarith [hval.1, hval.2])
  show Except.ok (pyround 1 (24 / π * 1.571)) = _
  rw [hm]
  norm_num

/-- Daily extraterrestrial radiation at the equator, day 81: 37.8. -/
theorem Ra81 {e : TimeEntry} (hlat : e.station.latitude_rad = 0)
    (hday : e.day_number = 81) (hres : e.res = .daily) : e.R_a = .ok 37.8 := by
  have hd := decl81 hday
  have hr := rsd81 hday
  simp only [TimeEntry.R_a, hres]
  rw [TimeEntry.R_a_daily, sunset81 hlat hday, hd, hr, hlat]
  have hπl := Real.pi_gt_d6
  have hπu := Real.pi_lt_d6
  have hπ0 := Real.pi_pos
  have hc1 : (0.999997 : ℝ) ≤ Real.cos 0.002 := by
    have := one_sub_sq_div_two_le_cos 0.002
    nlinarith
  have hc2 : Real.cos 0.002 ≤ 1 := Real.cos_le_one _
  have hsin : Real.sin 1.571 = Real.cos (π / 2 - 1.571) :=
    (Real.cos_pi_div_two_sub (1.571 : ℝ)).symm
  have hs1 : (0.999999 : ℝ) ≤ Real.sin 1.571 := by
    rw [hsin]
    have := one_sub_sq_div_two_le_cos (π / 2 - 1.571)
    nlinarith
  have hs2 : Real.sin 1.571 ≤ 1 := Real.sin_le_one _
  have hval : 24 * 60 / π * 0.0820 * 1.006 *
      ((1.571 : ℝ) * Real.sin 0 * Real.sin 0.002 +
        Real.cos 0 * Real.cos 0.002 * Real.sin 1.571) =
      118.78848 * (Real.cos 0.002 * Real.sin 1.571) / π := by
    rw [Real.sin_zero, Real.cos_zero]
    ring
  have hlo : (37.75 : ℝ) ≤ 118.78848 * (Real.cos 0.002 * Real.sin 1.571) / π := by
    rw [le_div_iff hπ0]
    nlinarith
  have hhi : 118.78848 * (Real.cos 0.002 * Real.sin 1.571) / π < 37.85 := by
    rw [div_lt_iff hπ0]
    nlinarith
  show Except.ok (pyround 1 _) = _
  rw [hval]
  have hm := pyround_eq (n := 1) (x := 118.78848 * (Real.cos 0.002 * Real.sin 1.571) / π)
    (m := 378) (by push_cast; nlinarith) (by push_cast; nlinarith)
  rw [hm]
  norm_num

/-- Clear-sky radiation at the equator, day 81, altitude 100 m: 28.4. -/
theorem Rso81 {e : TimeEntry} (hlat : e.station.latitude_rad = 0)
    (hday : e.day_number = 81) (hres : e.res = .daily)
    (halt : e.station.altitude = 100) : e.R_so = .ok 28.4 := by
  rw [TimeEntry.R_so, Ra81 hlat hday hres]
  simp only [Except.map, halt]
  rw [if_neg (by norm_num)]
  refine congrArg Except.ok (pyround_of_rat (m := 284) ?_ ?_ ?_) <;> push_cast <;> norm_num

/-- Clear-sky radiation at the equator, day 81, altitude 8000 m: 34.4. -/
theorem Rso81_alt8000 {e : TimeEntry} (hlat : e.station.latitude_rad = 0)
    (hday : e.day_number = 81) (hres : e.res = .daily)
    (halt : e.station.altitude = 8000) : e.R_so = .ok 34.4 := by
  rw [TimeEntry.R_so, Ra81 hlat hday hres]
  simp only [Except.map, halt]
  rw [if_neg (by norm_num)]
  refine congrArg Except.ok (pyround_of_rat (m := 344) ?_ ?_ ?_) <;> push_cast <;> norm_num

/-- The hourly extraterrestrial radiation at midnight (hour 0) of day 81 at
the equator, with the station on the timezone reference meridian: the solar
time angle falls outside the daylight window, so `R_a` is 0. -/
theorem Ra81_hour0 {e : TimeEntry} (hlat : e.station.latitude_rad = 0)
    (hday : e.day_number = 81) (hres : e.res = .hourly) (hhour : e.hour = 0)
    (htz : e.station.timezone_longitude = 345) (hlong : e.station.longitude = 345.0) :
    e.R_a = .ok 0 := by
  have hw : e.solar_time_angle < -1.571 := by
    simp only [TimeEntry.solar_time_angle, hday, hhour, htz, hlong]
    push_cast
    norm_num
    nlinarith [Real.pi_gt_d6, Real.pi_lt_d6]
  simp only [TimeEntry.R_a, hres, TimeEntry.R_a_hourly, sunset81 hlat hday]
  rw [if_pos (Or.inl hw)]

/-- Hourly clear-sky radiation at such a midnight hour: 0. -/
theorem Rso81_hour0 {e : TimeEntry} (hlat : e.station.latitude_rad = 0)
    (hday : e.day_number = 81) (hres : e.res = .hourly) (hhour : e.hour = 0)
    (htz : e.station.timezone_longitude = 345) (hlong : e.station.longitude = 345.0) :
    e.R_so = .ok 0 := by
  rw [TimeEntry.R_so, Ra81_hour0 hlat hday hres hhour htz hlong]
  simp only [Except.map]
  split_ifs <;> norm_num [pyround]

/-! ## Claim C4 -/

/-- Claim C4, counterexample: constructing a station with the in-range
timezone longitude argument 100 succeeds, but the stored timezone reference
longitude is the constant 345, not the argument — refuting the claim that
the stored value equals the argument passed. -/
theorem C4_counterexample :
    Station.init 0.0 345.0 100 2 100 = .ok station0 ∧
      station0.timezone_longitude = 345 ∧ (345 : ℤ) ≠ 100 := by
  refine ⟨?_, rfl, by norm_num⟩
  rw [Station.init]
  have h0 : pyround 3 ((0 : ℝ)) = 0 := by norm_num [pyround]
  norm_num [station0, h0]

/-- Claim C4, amended: for every construction with a timezone longitude in
[0, 359] and otherwise valid arguments, construction succeeds but the
stored timezone reference longitude is always 345, regardless of the
argument; construction with a timezone longitude outside [0, 359] fails
with `RangeError` (a bare `Exception` in the source). -/
theorem C4_amended (lat lon : ℝ) (alt : ℤ) (anem : ℝ) (tz : ℤ) :
    (0 ≤ tz → tz ≤ 359 → -90.0 ≤ lat → lat ≤ 90.0 → 0 ≤ lon → lon ≤ 360.0 → 0 ≤ alt →
      ∃ st, Station.init lat lon alt anem tz = .ok st ∧ st.timezone_longitude = 345) ∧
    ((tz < 0 ∨ tz > 359) → -90.0 ≤ lat → lat ≤ 90.0 → 0 ≤ lon → lon ≤ 360.0 → 0 ≤ alt →
      Station.init lat lon alt anem tz =
        .error (.exception "timezone_longitude in degrees West of Greenwhich.")) := by
  constructor
  · intro h1 h2 h3 h4 h5 h6 h7
    rw [Station.init]
    rw [if_neg (by push_neg; exact ⟨by linarith, by linarith⟩),
        if_neg (by push_neg; exact ⟨by linarith, by linarith⟩),
        if_neg (by omega),
        if_neg (by omega)]
    exact ⟨_, rfl, rfl⟩
  · intro h1 h2 h3 h4 h5 h6
    rw [Station.init]
    rw [if_neg (by push_neg; exact ⟨by linarith, by linarith⟩),
        if_neg (by push_neg; exact ⟨by linarith, by linarith⟩),
        if_neg (by omega),
        if_pos (by omega)]

/-- Claim C4, witness for the amended theorem at concrete inputs. -/
theorem C4_witness :
    (∃ st, Station.init 0.0 345.0 100 2 99 = .ok st ∧ st.timezone_longitude = 345) ∧
    Station.init 0.0 345.0 100 2 400 =
      .error (.exception "timezone_longitude in degrees West of Greenwhich.") := by
  constructor
  · exact (C4_amended 0.0 345.0 100 2 99).1 (by norm_num) (by norm_num) (by norm_num)
      (by norm_num) (by norm_num) (by norm_num) (by norm_num)
  · exact (C4_amended 0.0 345.0 100 2 400).2 (Or.inr (by norm_num)) (by norm_num)
      (by norm_num) (by norm_num) (by norm_num) (by norm_num)

/-! ## Claim C9 -/

/-- Entry with an explicitly logged wind speed of 0 (calm hour) at a station
with the default climate profile and a 2 m anemometer. -/
def e9 : TimeEntry :=
  { res := .daily, station := station0, day_number := 81, wind_speed := some 0 }

/-- Claim C9, counterexample: with a logged wind speed of exactly 0 and the
anemometer at 2 m, `wind_speed_2m` does not return the logged value 0 — it
falls through to the climate average 2.0, because Python truthiness treats
the logged 0.0 as absent. -/
theorem C9_counterexample :
    TimeEntry.wind_speed_2m e9 = .ok (some 2.0) ∧
      TimeEntry.wind_speed_2m e9 ≠ .ok (some 0) := by
  have h : TimeEntry.wind_speed_2m e9 = .ok (some 2.0) := by
    rw [TimeEntry.wind_speed_2m]
    norm_num [e9, station0, Climate.init]
  refine ⟨h, ?_⟩
  rw [h]
  intro hc
  simp only [Except.ok.injEq, Option.some.injEq] at hc
  norm_num at hc

/-- Claim C9, amended: the four-way case split of `wind_speed_2m`, with
"a logged wind speed" read as a logged nonzero wind speed (a logged 0 is
treated as absent by truthiness), the height-corrected case rounded to one
decimal and restricted to heights whose logarithm argument is positive and
whose logarithm is nonzero. -/
theorem C9_amended :
    (∀ e : TimeEntry, ∀ w : ℝ, e.wind_speed = some w → w ≠ 0 →
        e.station.anemometer_height = 2 → e.wind_speed_2m = .ok (some w)) ∧
    (∀ e : TimeEntry, ∀ w : ℝ, e.wind_speed = some w → w ≠ 0 →
        e.station.anemometer_height ≠ 2 →
        0 < 67.8 * e.station.anemometer_height - 5.42 →
        Real.log (67.8 * e.station.anemometer_height - 5.42) ≠ 0 →
        e.wind_speed_2m = .ok (some (pyround 1
          (w * (4.87 / Real.log (67.8 * e.station.anemometer_height - 5.42)))))) ∧
    (∀ e : TimeEntry, ∀ c : Climate, (e.wind_speed = none ∨ e.wind_speed = some 0) →
        e.station.climate = some c → e.wind_speed_2m = .ok (some c.average_wind_speed)) ∧
    (∀ e : TimeEntry, (e.wind_speed = none ∨ e.wind_speed = some 0) →
        e.station.climate = none → e.wind_speed_2m = .ok none) := by
  refine ⟨?_, ?_, ?_, ?_⟩
  · intro e w hw hw0 hh
    simp [TimeEntry.wind_speed_2m, hw, hw0, hh]
  · intro e w hw hw0 hh hlog hlog0
    simp [TimeEntry.wind_speed_2m, hw, hw0, hh, pymath_log, hlog, hlog0]
  · intro e c hw hc
    rcases hw with hw | hw <;> simp [TimeEntry.wind_speed_2m, hw, hc]
  · intro e hw hc
    rcases hw with hw | hw <;> simp [TimeEntry.wind_speed_2m, hw, hc]

/-- Claim C9, witness for the amended theorem at concrete entries. -/
theorem C9_witness :
    TimeEntry.wind_speed_2m
        { res := .daily, station := station0, day_number := 81, wind_speed := some 3.0 } =
      .ok (some 3.0) ∧
    TimeEntry.wind_speed_2m { res := .daily, station := station0, day_number := 81 } =
      .ok (some 2.0) := by
  constructor
  · exact C9_amended.1 _ 3.0 rfl (by norm_num) rfl
  · exact C9_amended.2.2.1 _ Climate.init (Or.inl rfl) rfl

/-! ## Congruence lemmas: the astronomic derivations depend only on the
station, the day number, the hour and the resolution, not on the
observation fields. -/

theorem solar_declination_congr {e f : TimeEntry} (hday : f.day_number = e.day_number) :
    f.solar_declination = e.solar_declination := by
  rw [TimeEntry.solar_declination, TimeEntry.solar_declination, hday]

theorem relative_sun_distance_congr {e f : TimeEntry} (hday : f.day_number = e.day_number) :
    f.relative_sun_distance = e.relative_sun_distance := by
  rw [TimeEntry.relative_sun_distance, TimeEntry.relative_sun_distance, hday]

theorem sunset_hour_angle_congr {e f : TimeEntry} (hst : f.station = e.station)
    (hday : f.day_number = e.day_number) : f.sunset_hour_angle = e.sunset_hour_angle := by
  rw [TimeEntry.sunset_hour_angle, TimeEntry.sunset_hour_angle,
      solar_declination_congr hday, hst]

theorem daylight_hours_congr {e f : TimeEntry} (hst : f.station = e.station)
    (hday : f.day_number = e.day_number) : f.daylight_hours = e.daylight_hours := by
  rw [TimeEntry.daylight_hours, TimeEntry.daylight_hours, sunset_hour_angle_congr hst hday]

theorem solar_time_angle_congr {e f : TimeEntry} (hst : f.station = e.station)
    (hday : f.day_number = e.day_number) (hhour : f.hour = e.hour) :
    f.solar_time_angle = e.solar_time_angle := by
  rw [TimeEntry.solar_time_angle, TimeEntry.solar_time_angle, hst, hday, hhour]

theorem R_a_congr {e f : TimeEntry} (hres : f.res = e.res) (hst : f.station = e.station)
    (hday : f.day_number = e.day_number) (hhour : f.hour = e.hour) : f.R_a = e.R_a := by
  rw [TimeEntry.R_a, TimeEntry.R_a, hres]
  cases he : e.res
  · simp only
    rw [TimeEntry.R_a_daily, TimeEntry.R_a_daily, sunset_hour_angle_congr hst hday,
        solar_declination_congr hday, relative_sun_distance_congr hday, hst]
  · simp only
    rw [TimeEntry.R_a_hourly, TimeEntry.R_a_hourly, sunset_hour_angle_congr hst hday,
        solar_time_angle_congr hst hday hhour, solar_declination_congr hday,
        relative_sun_distance_congr hday, hst]

theorem R_so_congr {e f : TimeEntry} (hres : f.res = e.res) (hst : f.station = e.station)
    (hday : f.day_number = e.day_number) (hhour : f.hour = e.hour) : f.R_so = e.R_so := by
  rw [TimeEntry.R_so, TimeEntry.R_so, R_a_congr hres hst hday hhour, hst]

/-! ## Claim C10 -/

/-- Claim C10, confirmed: an optional observation logged as exactly 0 is
treated by the fallback chains as if absent — zero wind (with a climate)
yields the climate average, zero mean temperature falls back as if unset,
zero minimum temperature disables the climate-based dew point estimate, and
a daily entry with zero logged radiation proceeds to the estimation
fallbacks. -/
theorem C10_zero_treated_as_absent :
    (∀ e : TimeEntry, ∀ c : Climate, e.wind_speed = some 0 → e.station.climate = some c →
        e.wind_speed_2m = .ok (some c.average_wind_speed)) ∧
    (∀ e : TimeEntry, e.temp_mean = some 0 →
        e.Tmean = TimeEntry.Tmean { e with temp_mean := none }) ∧
    (∀ e : TimeEntry, e.temp_min = some 0 →
        e.dew_point = TimeEntry.dew_point { e with temp_min := none }) ∧
    (∀ e f : TimeEntry, e.res = .daily → e.radiation_s = some 0 → f.res = .daily →
        f.station = e.station → f.day_number = e.day_number → f.hour = e.hour →
        f.sunshine_hours = e.sunshine_hours → f.temp_min = e.temp_min →
        f.temp_max = e.temp_max → f.radiation_s = none →
        e.solar_radiation = f.solar_radiation) := by
  refine ⟨?_, ?_, ?_, ?_⟩
  · intro e c hw hc
    rw [TimeEntry.wind_speed_2m, hw, hc]
    simp
  · intro e hm
    rw [TimeEntry.Tmean, TimeEntry.Tmean, hm]
    simp
  · intro e hm
    rw [TimeEntry.dew_point, TimeEntry.dew_point, hm]
    rcases hc : e.station.climate with _ | c <;> rcases hd : e.temp_dew with _ | d <;> simp
  · intro e f he h0 hf hst hday hhour hsun htmin htmax hrad
    simp only [TimeEntry.solar_radiation, he, hf]
    conv_lhs => rw [TimeEntry.solar_radiation_day]
    conv_rhs => rw [TimeEntry.solar_radiation_day]
    rw [h0, hrad]
    simp only [hsun, htmin, htmax, hst, hday, daylight_hours_congr hst hday,
      R_a_congr (by rw [hf, he]) hst hday hhour]
    norm_num

/-- Claim C10, witness at concrete entries. -/
theorem C10_witness :
    TimeEntry.wind_speed_2m
        { res := .daily, station := station0, day_number := 81, wind_speed := some 0,
          temp_min := some 10.0 } = .ok (some 2.0) ∧
    TimeEntry.Tmean
        { res := .daily, station := station0, day_number := 81, temp_mean := some 0,
          temp_min := some 10.0, temp_max := some 20.0 } =
      TimeEntry.Tmean
        { res := .daily, station := station0, day_number := 81, temp_mean := none,
          temp_min := some 10.0, temp_max := some 20.0 } ∧
    TimeEntry.dew_point
        { res := .daily, station := station0, day_number := 81, temp_min := some 0 } =
      TimeEntry.dew_point
        { res := .daily, station := station0, day_number := 81, temp_min := none } ∧
    TimeEntry.solar_radiation
        { res := .daily, station := station0, day_number := 81, radiation_s := some 0 } =
      TimeEntry.solar_radiation
        { res := .daily, station := station0, day_number := 81, radiation_s := none } := by
  refine ⟨?_, ?_, ?_, ?_⟩
  · exact C10_zero_treated_as_absent.1 _ Climate.init rfl rfl
  · exact C10_zero_treated_as_absent.2.1 _ rfl
  · exact C10_zero_treated_as_absent.2.2.1 _ rfl
  · exact C10_zero_treated_as_absent.2.2.2 _ _ rfl rfl rfl rfl rfl rfl rfl rfl rfl rfl

/-! ## Claim C2 -/

/-- The empty day registry. -/
def emptyDays : DayMap := fun _ => none

/-- A bare daily entry at the equatorial station, day 81, no observations. -/
def eDay81 : TimeEntry := { res := .daily, station := station0, day_number := 81 }

/-- Observations carrying an out-of-range sunshine-hours value (13 h against
12.0 daylight hours). -/
def obs2 : DayObs := { sunshine_hours := some 13 }

/-- Daylight hours of the bare concrete entry. -/
theorem eDay81_daylight : TimeEntry.daylight_hours eDay81 = .ok 12.0 :=
  daylight81 rfl rfl

/-- Claim C2, counterexample: creating a daily entry whose sunshine-hours
observation fails validation raises `ValidationError`, yet the day registry
afterwards contains an entry under that day number — storage happened
before validation, refuting the claim that the station state is unchanged
on failure. -/
theorem C2_counterexample :
    (Station.day_entry station0 emptyDays 81 obs2).2 =
        .error (.valueError "Sunshine hours out of range") ∧
      (Station.day_entry station0 emptyDays 81 obs2).1 81 = some eDay81 := by
  have key : Station.day_entry station0 emptyDays 81 obs2 =
      (fun j => if j = 81 then some eDay81 else emptyDays j,
        .error (.valueError "Sunshine hours out of range")) := by
    rw [Station.day_entry, if_neg (by norm_num)]
    have hdl : TimeEntry.daylight_hours eDay81 = .ok 12.0 := eDay81_daylight
    simp only [eDay81] at hdl
    simp only [obs2, CHECK_SUNSHINE_HOURS_RANGE, eDay81]
    rw [hdl]
    norm_num
  rw [key]
  simp only [eDay81]
  norm_num

/-- Claim C2, amended: for every in-range day number, the factory stores an
entry under that day number unconditionally — also when radiation or
sunshine validation then fails (the insert precedes validation, so a
failed creation still mutates the registry); only an out-of-range day
number leaves the registry unchanged. -/
theorem C2_amended :
    (∀ (st : Station) (days : DayMap) (dn : ℤ) (obs : DayObs), 1 ≤ dn → dn ≤ 366 →
      ∃ en, (Station.day_entry st days dn obs).1 dn = some en) ∧
    (∀ (st : Station) (days : DayMap) (dn : ℤ) (obs : DayObs), dn < 1 ∨ 366 < dn →
      (Station.day_entry st days dn obs).1 = days) := by
  constructor
  · intro st days dn obs h1 h2
    rw [Station.day_entry, if_neg (not_not_intro ⟨h1, h2⟩)]
    simp only
    split
    next e1 err heq => exact ⟨e1, by simp⟩
    next e1 heq =>
      split
      next e2 err heq2 => exact ⟨e2, by simp⟩
      next e2 heq2 => exact ⟨e2, by simp⟩
  · intro st days dn obs h
    rw [Station.day_entry, if_pos (by omega)]

/-- Claim C2, witness for the amended theorem: an entry creation that fails
sunshine validation nevertheless stores an entry for day 81. -/
theorem C2_witness :
    ∃ en, (Station.day_entry station0 emptyDays 81 { sunshine_hours := some 14 }).1 81 =
      some en :=
  C2_amended.1 station0 emptyDays 81 { sunshine_hours := some 14 } (by norm_num) (by norm_num)

/-! ## Claim C8 -/

/-- Claim C8, counterexample: a daily entry created with `radiation_s = 0`
(a value strictly below the positive clear-sky ceiling 28.4) is created
successfully, but `solar_radiation()` does not return 0: the logged 0 is
treated as absent by truthiness, and the Angstrom full-sun estimate above
20 is returned instead. -/
theorem C8_counterexample :
    (Station.day_entry station0 emptyDays 81 { radiation_s := some 0 }).2 = .ok eDay81 ∧
      eDay81.radiation_s = none ∧
      TimeEntry.R_so eDay81 = .ok 28.4 ∧
      (∃ v, TimeEntry.solar_radiation eDay81 = .ok v ∧ 20 < v) ∧
      TimeEntry.solar_radiation eDay81 ≠ .ok 0 := by
  have hsolar : TimeEntry.solar_radiation eDay81 =
      .ok (pyround 1 ((0.25 + 0.50 * 12.0 / 12.0) * 37.8)) := by
    have hdl : TimeEntry.daylight_hours eDay81 = .ok 12.0 := eDay81_daylight
    have hra : TimeEntry.R_a eDay81 = .ok 37.8 := Ra81 rfl rfl rfl
    simp only [eDay81, station0, Climate.init] at hdl hra ⊢
    simp only [TimeEntry.solar_radiation, TimeEntry.solar_radiation_day,
      CHECK_SUNSHINE_HOURS_RANGE, hdl, hra]
    norm_num
  have hv : (20 : ℝ) < pyround 1 ((0.25 + 0.50 * 12.0 / 12.0) * 37.8) := by
    have habs := abs_le.mp (pyround_abs_sub 1 ((0.25 + 0.50 * 12.0 / 12.0) * 37.8))
    norm_num at habs ⊢
    linarith [habs.1, habs.2]
  refine ⟨?_, rfl, Rso81 rfl rfl rfl rfl, ⟨_, hsolar, hv⟩, ?_⟩
  · rw [Station.day_entry, if_neg (by norm_num)]
    simp only [eDay81]
    norm_num
  · rw [hsolar]
    intro hc
    simp only [Except.ok.injEq] at hc
    rw [hc] at hv
    norm_num at hv

/-- Claim C8, amended: the round trip holds for every nonzero logged
radiation value accepted by the factory: if daily entry creation with
`radiation_s = r`, `r` nonzero, succeeds (so `r` is at or below the
clear-sky ceiling), then `solarRadiation()` on the returned entry yields
exactly `r`, unchanged by any estimation fallback.  A logged 0 is
excluded: truthiness treats it as absent and estimation runs instead. -/
theorem C8_amended (st : Station) (days : DayMap) (dn : ℤ) (obs : DayObs) (r : ℝ)
    (hobs : obs.radiation_s = some r) (hr : r ≠ 0) (e : TimeEntry)
    (he : (Station.day_entry st days dn obs).2 = .ok e) :
    e.solar_radiation = .ok r := by
  rw [Station.day_entry] at he
  by_cases hdn : dn ≥ 1 ∧ dn ≤ 366
  case neg =>
    rw [if_pos hdn] at he
    exact absurd he (by simp)
  case pos =>
  rw [if_neg (not_not_intro hdn)] at he
  simp only [hobs, hr, CHECK_RADIATION_RANGE, CHECK_SUNSHINE_HOURS_RANGE, ne_eq,
    not_false_eq_true, if_true] at he
  split at he
  next e1 err heq => simp at he
  next e1 heq =>
    split at he
    next e2 err2 heq2 => simp at he
    next e2 heq2 =>
      simp only [Except.ok.injEq] at he
      subst he
      split at heq
      next err heqR => simp at heq
      next rso heqR =>
        split at heq
        next hle =>
          injection heq with he1 hnone
          subst he1
          suffices hfields : e2.radiation_s = some r ∧ e2.res = Res.daily ∧
              TimeEntry.R_so e2 = .ok rso by
            obtain ⟨h1, h2, hR⟩ := hfields
            simp only [TimeEntry.solar_radiation, h2]
            rw [TimeEntry.solar_radiation_day]
            simp only [h1, hr, CHECK_RADIATION_RANGE, ne_eq, not_false_eq_true, if_true, hR]
            rw [if_neg (not_lt.mpr hle)]
          split at heq2
          next sh hsh =>
            split at heq2
            next hsh0 =>
              split at heq2
              next errN heqN => simp at heq2
              next N0 heqN =>
                split at heq2
                next hshle =>
                  injection heq2 with he2 hnone2
                  subst he2
                  refine ⟨rfl, rfl, ?_⟩
                  rw [← heqR]
                  exact R_so_congr rfl rfl rfl rfl
                next hshgt => simp at heq2
            next hsh0 =>
              injection heq2 with he2 hnone2
              subst he2
              refine ⟨rfl, rfl, ?_⟩
              rw [← heqR]
              exact R_so_congr rfl rfl rfl rfl
          next hsh =>
            injection heq2 with he2 hnone2
            subst he2
            refine ⟨rfl, rfl, ?_⟩
            rw [← heqR]
            exact R_so_congr rfl rfl rfl rfl
        next hgt => simp at heq

/-- Claim C8, witness: a daily entry created at the equatorial station with
radiation 5.0 (below the ceiling 28.4) reads 5.0 back from
`solar_radiation()`. -/
theorem C8_witness :
    ∃ e : TimeEntry,
      (Station.day_entry station0 emptyDays 81 { radiation_s := some 5.0 }).2 = .ok e ∧
        e.solar_radiation = .ok 5.0 := by
  have hRso : TimeEntry.R_so eDay81 = .ok 28.4 := Rso81 rfl rfl rfl rfl
  have key : (Station.day_entry station0 emptyDays 81 { radiation_s := some 5.0 }).2 =
      .ok { eDay81 with radiation_s := some 5.0 } := by
    rw [Station.day_entry, if_neg (by norm_num)]
    have hRso2 := hRso
    simp only [eDay81] at hRso2
    simp only [CHECK_RADIATION_RANGE, eDay81, hRso2]
    norm_num
  exact ⟨_, key, C8_amended station0 emptyDays 81 _ 5.0 rfl (by norm_num) _ key⟩

/-! ## Claim C5 -/

/-- The equatorial station with an island climate profile (altitude 100 m,
so the low-altitude island shortcut of Eq. 51 does not apply). -/
def st_isl : Station := { station0 with climate := some Climate.init.island }

/-- A daily entry at the island station with both temperature extremes. -/
def e5 : TimeEntry :=
  { res := .daily, station := st_isl, day_number := 81,
    temp_min := some 10.0, temp_max := some 20.0 }

/-- Rational bracketing of the square root of 10. -/
theorem sqrt10_bounds : (3.16 : ℝ) < Real.sqrt 10 ∧ Real.sqrt 10 < 3.17 := by
  have hs : Real.sqrt 10 ^ 2 = 10 := Real.sq_sqrt (by norm_num)
  have hs0 : (0 : ℝ) ≤ Real.sqrt 10 := Real.sqrt_nonneg _
  constructor <;> nlinarith

/-- Claim C5, counterexample: at an island profile (radiation coefficient
0.19) with altitude ≥ 100 m and both temperature extremes known, the
Hargreaves-Samani branch uses the hardcoded krs = 0.16, not the profile's
0.19 — the claimed value is refuted. -/
theorem C5_counterexample :
    st_isl.climate = some Climate.init.island ∧
      Climate.init.island.k_rs = 0.19 ∧
      TimeEntry.R_a e5 = .ok 37.8 ∧
      TimeEntry.solar_radiation e5 = .ok (pyround 1 (0.16 * Real.sqrt 10 * 37.8)) ∧
      TimeEntry.solar_radiation e5 ≠ .ok (pyround 1 (0.19 * Real.sqrt 10 * 37.8)) := by
  have hra : TimeEntry.R_a e5 = .ok 37.8 := Ra81 rfl rfl rfl
  have hsolar : TimeEntry.solar_radiation e5 = .ok (pyround 1 (0.16 * Real.sqrt 10 * 37.8)) := by
    have hra2 := hra
    simp only [e5, st_isl, station0, Climate.init, Climate.island] at hra2 ⊢
    simp only [TimeEntry.solar_radiation, TimeEntry.solar_radiation_day,
      CHECK_RADIATION_RANGE, pymath_sqrt, hra2]
    norm_num
  have hlt : pyround 1 (0.16 * Real.sqrt 10 * 37.8) < pyround 1 (0.19 * Real.sqrt 10 * 37.8) := by
    obtain ⟨hs1, hs2⟩ := sqrt10_bounds
    have h1 := abs_le.mp (pyround_abs_sub 1 (0.16 * Real.sqrt 10 * 37.8))
    have h2 := abs_le.mp (pyround_abs_sub 1 (0.19 * Real.sqrt 10 * 37.8))
    norm_num at h1 h2
    nlinarith [h1.1, h1.2, h2.1, h2.2]
  refine ⟨rfl, by norm_num [Climate.init, Climate.island], hra, hsolar, ?_⟩
  rw [hsolar]
  intro hc
  simp only [Except.ok.injEq] at hc
  rw [hc] at hlt
  exact lt_irrefl _ hlt

/-- Claim C5, amended: in the Hargreaves-Samani branch (no usable logged
radiation or sunshine, climate present, both temperature extremes truthy,
island low-altitude shortcut not applicable), `solar_radiation` equals
`krs·sqrt(tmax−tmin)·Ra` rounded to 1 decimal with krs HARDCODED from the
location flags: 0.19 if coastal, else 0.16 — island profiles get 0.16, and
the profile's stored radiation coefficient `k_rs` is never consulted. -/
theorem C5_amended (e : TimeEntry) (c : Climate) (a b ra : ℝ)
    (hres : e.res = .daily) (hrad : e.radiation_s = none ∨ e.radiation_s = some 0)
    (hsun : e.sunshine_hours = none) (hc : e.station.climate = some c)
    (hno : ¬ (c.island_location = true ∧ e.station.altitude < 100))
    (htmin : e.temp_min = some a) (htmax : e.temp_max = some b)
    (ha : a ≠ 0) (hb : b ≠ 0) (hab : a ≤ b) (hra : e.R_a = .ok ra) :
    e.solar_radiation = .ok (pyround 1
      ((if c.coastal_location then (0.19 : ℝ) else 0.16) * Real.sqrt (b - a) * ra)) := by
  have hsq : pymath_sqrt (b - a) = .ok (Real.sqrt (b - a)) := by
    rw [pymath_sqrt, if_pos (by linarith)]
  rcases hrad with h0 | h0
  · simp only [TimeEntry.solar_radiation, hres, TimeEntry.solar_radiation_day, h0, hsun,
      hc, htmin, htmax, ha, hb, hra, hsq, if_neg hno]
    rw [if_pos (And.intro ha hb)]
  · simp only [TimeEntry.solar_radiation, hres, TimeEntry.solar_radiation_day, h0]
    rw [if_neg (by norm_num)]
    simp only [hsun, hc, htmin, htmax, ha, hb, hra, hsq, if_neg hno]
    rw [if_pos (And.intro ha hb)]

/-- The equatorial station with a coastal climate profile. -/
def st_cst : Station := { station0 with climate := some Climate.init.coastal }

/-- Claim C5, witness: at a coastal profile the amended branch yields the
0.19 coefficient. -/
theorem C5_witness :
    TimeEntry.solar_radiation
        { res := .daily, station := st_cst,
          day_number := 81, temp_min := some 10.0, temp_max := some 20.0 } =
      .ok (pyround 1 ((if Climate.init.coastal.coastal_location then (0.19 : ℝ) else 0.16) *
        Real.sqrt (20.0 - 10.0) * 37.8)) := by
  refine C5_amended _ _ 10.0 20.0 37.8 rfl (Or.inl rfl) rfl rfl ?_ rfl rfl (by norm_num)
    (by norm_num) (by norm_num) (Ra81 rfl rfl rfl)
  norm_num [Climate.init, Climate.coastal]

/-! ## Claim C6 -/

/-- A daily entry at the equatorial station lifted to altitude 8000 m. -/
def e6 : TimeEntry :=
  { res := .daily, station := { station0 with altitude := 8000 }, day_number := 81 }

/-- Claim C6, counterexample: at altitude 8000 m, `R_so` is
`round((0.75 + 2e-5·8000)·Ra, 1) = 34.4`, which differs from `0.75·Ra`
(= 28.35, rounding to 28.4) — so the two branch forms do NOT coincide and
there IS a behavioral split above 100 m. -/
theorem C6_counterexample :
    TimeEntry.R_a e6 = .ok 37.8 ∧
      TimeEntry.R_so e6 = .ok 34.4 ∧
      (34.4 : ℝ) ≠ pyround 1 (0.75 * 37.8) ∧
      (34.4 : ℝ) ≠ 0.75 * 37.8 := by
  have h284 : pyround 1 ((0.75 : ℝ) * 37.8) = 28.4 := by
    exact pyround_of_rat (m := 284) (by norm_num) (by norm_num) (by norm_num)
  exact ⟨Ra81 rfl rfl rfl, Rso81_alt8000 rfl rfl rfl rfl,
    by rw [h284]; norm_num, by norm_num⟩

/-- Claim C6, amended: `clearSkyRadiation()` is `round(0.75·Ra, 1)` for
altitude < 100 m and `round((0.75 + 2e-5·altitude)·Ra, 1)` for altitude
≥ 100 m; the two forms do not coincide in general — contrary to the
claim, the altitude term is not vanishing, and at altitude 8000 m the
result differs from `0.75·Ra`. -/
theorem C6_amended :
    (∀ e : TimeEntry, ∀ ra : ℝ, e.R_a = .ok ra → e.station.altitude < 100 →
        e.R_so = .ok (pyround 1 (0.75 * ra))) ∧
    (∀ e : TimeEntry, ∀ ra : ℝ, e.R_a = .ok ra → 100 ≤ e.station.altitude →
        e.R_so = .ok (pyround 1
          ((0.75 + 2 * (10 : ℝ) ^ (-(5 : ℤ)) * (e.station.altitude : ℝ)) * ra))) ∧
    TimeEntry.R_so e6 ≠ .ok (pyround 1 (0.75 * 37.8)) := by
  refine ⟨?_, ?_, ?_⟩
  · intro e ra hra halt
    rw [TimeEntry.R_so, hra]
    simp only [Except.map]
    rw [if_pos halt]
    norm_num
  · intro e ra hra halt
    rw [TimeEntry.R_so, hra]
    simp only [Except.map]
    rw [if_neg (not_lt.mpr halt)]
  · have h284 : pyround 1 ((0.75 : ℝ) * 37.8) = 28.4 := by
      exact pyround_of_rat (m := 284) (by norm_num) (by norm_num) (by norm_num)
    rw [Rso81_alt8000 (e := e6) rfl rfl rfl rfl, h284]
    intro hc
    simp only [Except.ok.injEq] at hc
    norm_num at hc

/-- The equatorial station at sea level. -/
def st_sea : Station := { station0 with altitude := 0 }

/-- Claim C6, witness: both branches of the amended theorem at concrete
entries sharing the same extraterrestrial radiation 37.8. -/
theorem C6_witness :
    TimeEntry.R_so
        { res := .daily, station := st_sea,
          day_number := 81 } = .ok (pyround 1 (0.75 * 37.8)) ∧
      TimeEntry.R_so e6 = .ok (pyround 1
        ((0.75 + 2 * (10 : ℝ) ^ (-(5 : ℤ)) * ((e6.station.altitude : ℤ) : ℝ)) * 37.8)) := by
  constructor
  · exact C6_amended.1 _ 37.8 (Ra81 rfl rfl rfl) (by norm_num [st_sea, station0])
  · exact C6_amended.2.1 e6 37.8 (Ra81 rfl rfl rfl) (by norm_num [e6, station0])

/-! ## Claim C1 -/

/-- The empty hour registry. -/
def emptyHours : HourMap := fun _ => none

/-- A bare hourly entry at the equatorial station, midnight of day 81. -/
def eH81 : TimeEntry := { res := .hourly, station := station0, day_number := 81 }

/-- The same hourly entry with an out-of-band logged radiation 0.2. -/
def eH81r : TimeEntry := { eH81 with radiation_s := some 0.2 }

/-- Claim C1, code bug: at a nighttime hour the clear-sky ceiling is 0, so
per the claim (and per the entry's own getter) a logged radiation of 0.2
is out of the 5 percent band (0.2 > 0.05) and creation must fail with
`ValidationError`.  The factory's condition is inverted
(`radiation_s - R_so > 0.05*R_so` STORES the value): creation succeeds
and stores 0.2, which the entry's own `solar_radiation` getter then
rejects. -/
theorem C1_hour_entry_inverted :
    TimeEntry.R_so eH81 = .ok 0 ∧
      ¬ ((0.2 : ℝ) ≤ 0.05) ∧
      (Station.hour_entry station0 emptyHours ⟨81, 0⟩ { radiation_s := some 0.2 }).2 =
        .ok eH81r ∧
      eH81r.radiation_s = some 0.2 ∧
      TimeEntry.solar_radiation eH81r = .error (.valueError "Lunar radiation out ot range") := by
  have hRso : TimeEntry.R_so eH81 = .ok 0 := Rso81_hour0 rfl rfl rfl rfl rfl rfl
  have hRsoR : TimeEntry.R_so eH81r = .ok 0 := Rso81_hour0 rfl rfl rfl rfl rfl rfl
  refine ⟨hRso, by norm_num, ?_, rfl, ?_⟩
  · rw [Station.hour_entry]
    have hRso2 := hRso
    simp only [eH81] at hRso2
    simp only [CHECK_RADIATION_RANGE, hRso2, eH81r, eH81]
    norm_num
  · have hRsoR2 := hRsoR
    simp only [eH81r, eH81] at hRsoR2 ⊢
    simp only [TimeEntry.solar_radiation, TimeEntry.solar_radiation_hour,
      CHECK_RADIATION_RANGE, hRsoR2]
    norm_num

/-! ## Claim C3 -/

/-- A daily entry with wind, mean temperature and radiation logged but no
temperature extremes: `R_nl` raises the missing-temperature error. -/
def e3 : TimeEntry :=
  { res := .daily, station := station0, day_number := 81,
    temp_mean := some 25.0, wind_speed := some 2.0, radiation_s := some 5.0 }

/-- Claim C3, code bug: on this entry `R_nl` raises the missing-temperature
exception, but `net_radiation` does not propagate it — its
`except ... raise(str(e))` replaces it (in Python 3) by
`TypeError("exceptions must derive from BaseException")` — and `eto`
surfaces that `TypeError`, not the original error, refuting "propagate
unchanged" as the code stands (the claim matches the evident intent of
the `try/except` re-raise). -/
theorem C3_raise_str_replaces_error :
    TimeEntry.R_nl e3 =
        .error (.exception "Net longwave radiation cannot be calculated without min/max temperature") ∧
      TimeEntry.net_radiation e3 = .error (.typeError raiseStrMsg) ∧
      TimeEntry.eto e3 = .error (.typeError raiseStrMsg) ∧
      PyError.typeError raiseStrMsg ≠
        PyError.exception "Net longwave radiation cannot be calculated without min/max temperature" := by
  have hnl : TimeEntry.R_nl e3 =
      .error (.exception "Net longwave radiation cannot be calculated without min/max temperature") := by
    simp [TimeEntry.R_nl, TimeEntry.R_nl_daily, e3]
  have hsol : TimeEntry.solar_radiation e3 = .ok 5.0 := by
    have hRso : TimeEntry.R_so e3 = .ok 28.4 := Rso81 rfl rfl rfl rfl
    simp only [e3] at hRso ⊢
    simp only [TimeEntry.solar_radiation, TimeEntry.solar_radiation_day,
      CHECK_RADIATION_RANGE, hRso]
    norm_num
  have hns : TimeEntry.R_ns e3 = .ok (pyround 1 ((1 - station0.ref_crop.albedo) * 5.0)) := by
    rw [TimeEntry.R_ns, hsol]
    rfl
  have hnet : TimeEntry.net_radiation e3 = .error (.typeError raiseStrMsg) := by
    rw [TimeEntry.net_radiation, hns, hnl]
    rfl
  have hw : TimeEntry.wind_speed_2m e3 = .ok (some 2.0) := by
    rw [TimeEntry.wind_speed_2m]
    norm_num [e3, station0]
  have heto : TimeEntry.eto e3 = .error (.typeError raiseStrMsg) := by
    have hTm : TimeEntry.Tmean e3 = some 25.0 := by
      rw [TimeEntry.Tmean]
      norm_num [e3]
    simp only [TimeEntry.eto, hw, hTm, hnet]
    norm_num [raiseStr]
  exact ⟨hnl, hnet, heto, by simp⟩

/-! ## Claim C7: sunset hour angle and extraterrestrial radiation

Helper lemmas about the rounded latitude / declination grid, then the
counterexample (the pole) and the amended guarded statement. -/

/-- `pyround 3` sends `π/2` to `1.571`. -/
theorem pyround3_pi_div_two : pyround 3 (π / 2) = 1.571 := by
  have hπl := Real.pi_gt_d6
  have hπu := Real.pi_lt_d6
  refine pyround_of_rat (m := 1571) ?_ ?_ ?_
  · push_cast
    nlinarith
  · push_cast
    nlinarith
  · norm_num

/-- `pyround 3` sends `-(π/2)` to `-1.571`. -/
theorem pyround3_neg_pi_div_two : pyround 3 (-(π / 2)) = -1.571 := by
  have hπl := Real.pi_gt_d6
  have hπu := Real.pi_lt_d6
  refine pyround_of_rat (m := -1571) ?_ ?_ ?_
  · push_cast
    nlinarith
  · push_cast
    nlinarith
  · norm_num

/-- Bounds on `cos 1.571`: just past `π/2`, slightly negative. -/
theorem cos_1571_bounds : (-0.000204 : ℝ) ≤ Real.cos 1.571 ∧
    Real.cos 1.571 ≤ -0.000203 := by
  have hπl := Real.pi_gt_d6
  have hπu := Real.pi_lt_d6
  have hq0 : (0.0002035 : ℝ) ≤ 1.571 - π / 2 := by nlinarith
  have hq1 : (1.571 - π / 2 : ℝ) ≤ 0.000204 := by nlinarith
  have hrw : Real.cos 1.571 = -Real.sin (1.571 - π / 2) := by
    rw [← Real.sin_pi_div_two_sub, ← neg_sub, Real.sin_neg]
  have hs1 : Real.sin (1.571 - π / 2) ≤ 0.000204 :=
    le_trans (sin_le_self (by linarith)) hq1
  have hs0 : (0.000203 : ℝ) ≤ Real.sin (1.571 - π / 2) := by
    have hlow := sin_q_lower (q := 1.571 - π / 2) (by linarith) (by linarith)
    have h3 : (1.571 - π / 2) ^ 3 ≤ (0.000204 : ℝ) ^ 3 :=
      pow_le_pow_left₀ (by linarith) hq1 3
    have h4 : (1.571 - π / 2) ^ 4 ≤ (0.000204 : ℝ) ^ 4 :=
      pow_le_pow_left₀ (by linarith) hq1 4
    have h3n : ((0.000204 : ℝ)) ^ 3 ≤ 0.00000001 := by norm_num
    have h4n : ((0.000204 : ℝ)) ^ 4 ≤ 0.00000001 := by norm_num
    linarith
  constructor
  · rw [hrw]
    linarith
  · rw [hrw]
    linarith

/-- Any angle of absolute value at most `1.571` has cosine at least
`-0.000204`. -/
theorem cos_ge_of_abs_le_1571 {x : ℝ} (h : |x| ≤ 1.571) :
    (-0.000204 : ℝ) ≤ Real.cos x := by
  have hπl := Real.pi_gt_d6
  rw [← Real.cos_abs]
  rcases eq_or_lt_of_le h with h2 | h2
  · rw [h2]
    exact cos_1571_bounds.1
  · have hlt := Real.cos_lt_cos_of_nonneg_of_le_pi (abs_nonneg x) (by nlinarith) h2
    linarith [cos_1571_bounds.1]

/-- The positive part of the daily extraterrestrial-radiation kernel:
`sin t - t * cos t ≥ 0` on `[0, π]`. -/
theorem sin_sub_mul_cos_nonneg {t : ℝ} (h0 : 0 ≤ t) (h1 : t ≤ π) :
    0 ≤ Real.sin t - t * Real.cos t := by
  rcases lt_or_le t (π / 2) with h | h
  · rcases eq_or_lt_of_le h0 with h2 | h2
    · rw [← h2]
      norm_num
    · have hcos : 0 < Real.cos t :=
        Real.cos_pos_of_mem_Ioo ⟨by linarith [Real.pi_pos], h⟩
      have htan : t < Real.tan t := Real.lt_tan h2 h
      rw [Real.tan_eq_sin_div_cos] at htan
      have := (lt_div_iff hcos).mp htan
      linarith
  · have hsin : 0 ≤ Real.sin t := Real.sin_nonneg_of_nonneg_of_le_pi h0 h1
    have hcos : Real.cos t ≤ 0 :=
      Real.cos_nonpos_of_pi_div_two_le_of_le h (by linarith [Real.pi_pos])
    nlinarith

/-- A point of the millistep grid within `[-1.571, 1.571]` is never an odd
multiple of `π/2`, so its cosine does not vanish. -/
theorem cos_grid_ne_zero (m : ℤ) (h : |(m : ℝ) / 1000| ≤ 1.571) :
    Real.cos ((m : ℝ) / 1000) ≠ 0 := by
  have hπl := Real.pi_gt_d6
  have hπu := Real.pi_lt_d6
  intro h0
  rw [Real.cos_eq_zero_iff] at h0
  obtain ⟨k, hk⟩ := h0
  have hb := abs_le.mp h
  have hk2 : (2 * (k : ℝ) + 1) * π = 2 * ((m : ℝ) / 1000) := by
    rw [hk]
    ring
  have hup : (2 * k + 1 : ℤ) < 2 := by
    by_contra hc
    push_neg at hc
    have hc' : (2 : ℝ) ≤ 2 * (k : ℝ) + 1 := by exact_mod_cast hc
    have := mul_le_mul_of_nonneg_right hc' Real.pi_pos.le
    linarith [hb.2]
  have hlo : (-2 : ℤ) < 2 * k + 1 := by
    by_contra hc
    push_neg at hc
    have hc' : (2 * (k : ℝ) + 1) ≤ -2 := by exact_mod_cast hc
    have := mul_le_mul_of_nonneg_right hc' Real.pi_pos.le
    linarith [hb.1]
  have hksmall : (2 * k + 1 = 1) ∨ (2 * k + 1 = -1) := by omega
  rcases hksmall with hk1 | hk1
  · have hc1 : (2 * (k : ℝ) + 1) = 1 := by exact_mod_cast hk1
    rw [hc1, one_mul] at hk2
    have hm1 : (1570 : ℝ) < (m : ℝ) := by linarith
    have hm2 : (m : ℝ) < 1571 := by linarith
    have hi1 : (1570 : ℤ) < m := by exact_mod_cast hm1
    have hi2 : m < (1571 : ℤ) := by exact_mod_cast hm2
    omega
  · have hc1 : (2 * (k : ℝ) + 1) = -1 := by exact_mod_cast hk1
    rw [hc1] at hk2
    have hm1 : (-1571 : ℝ) < (m : ℝ) := by linarith
    have hm2 : (m : ℝ) < -1570 := by linarith
    have hi1 : (-1571 : ℤ) < m := by exact_mod_cast hm1
    have hi2 : m < (-1570 : ℤ) := by exact_mod_cast hm2
    omega

/-- The polar station of latitude 90: exactly the record
`Station.init 90.0 345.0 100 2 345` produces (`st90_init`). -/
def st90 : Station :=
  { latitude := 90.0, longitude := 345.0, altitude := 100,
    latitude_rad := pyround 3 (π / 180 * 90.0),
    longitude_rad := pyround 3 (π / 180 * 345.0),
    timezone_longitude := 345, anemometer_height := 2,
    climate := some Climate.init, ref_crop := Crop.init }

theorem st90_init : Station.init 90.0 345.0 100 2 345 = .ok st90 := by
  rw [Station.init]
  norm_num [st90]

/-- The rounded latitude of the polar station is `1.571`, just past
`π/2`. -/
theorem st90_lat : st90.latitude_rad = 1.571 := by
  show pyround 3 (π / 180 * 90.0) = 1.571
  rw [show (π / 180 * 90.0 : ℝ) = π / 2 by ring]
  exact pyround3_pi_div_two

/-- Summer-solstice daily entry at the pole. -/
def e7 : TimeEntry := { res := .daily, station := st90, day_number := 172 }

/-- Solar declination of day 172 rounds to 0.409. -/
theorem decl172 {e : TimeEntry} (hday : e.day_number = 172) :
    e.solar_declination = 0.409 := by
  rw [TimeEntry.solar_declination, hday]
  push_cast
  have hπl := Real.pi_gt_d6
  have hπu := Real.pi_lt_d6
  obtain ⟨A, hA⟩ : ∃ A : ℝ, A = 2 * π / 365 * 172 - 1.39 := ⟨_, rfl⟩
  rw [← hA]
  have hA1 : (1.5708428 : ℝ) ≤ A := by rw [hA]; nlinarith
  have hA2 : A ≤ (1.5708439 : ℝ) := by rw [hA]; nlinarith
  have hsin : Real.sin A = Real.cos (π / 2 - A) := (Real.cos_pi_div_two_sub A).symm
  have hxabs : |π / 2 - A| ≤ (0.0000479 : ℝ) :=
    abs_le.mpr ⟨by nlinarith, by nlinarith⟩
  have hsq : (π / 2 - A) ^ 2 ≤ (0.0000479 : ℝ) ^ 2 := by
    rw [← sq_abs]
    exact pow_le_pow_left₀ (abs_nonneg _) hxabs 2
  have hs1 : (0.99999 : ℝ) ≤ Real.sin A := by
    rw [hsin]
    have hq := one_sub_sq_div_two_le_cos (π / 2 - A)
    nlinarith
  have hs2 : Real.sin A ≤ 1 := Real.sin_le_one A
  refine pyround_of_rat (m := 409) ?_ ?_ ?_
  · push_cast
    nlinarith
  · push_cast
    nlinarith
  · norm_num

/-- C7, counterexample: the claim promises that for every latitude in
[-90°, 90°] and day-of-year in [1, 366] the sunset hour angle and the
extraterrestrial radiation are defined (the `acos` argument stays inside
[-1, 1]).  At the pole (latitude 90, a valid `Station.init` input) on day
172, the stored rounded latitude is 1.571 > π/2, its tangent is a large
negative number, the `acos` argument exceeds 1, and both
`sunsetHourAngle()` and `extraterrestrialRadiation()` raise the math
domain error instead of returning values. -/
theorem C7_counterexample :
    Station.init 90.0 345.0 100 2 345 = .ok st90 ∧
    TimeEntry.sunset_hour_angle e7 = .error (.valueError "math domain error") ∧
    TimeEntry.R_a e7 = .error (.valueError "math domain error") := by
  have hd : TimeEntry.solar_declination e7 = 0.409 := decl172 rfl
  have hπl := Real.pi_gt_d6
  have hπu := Real.pi_lt_d6
  have hc15 := cos_1571_bounds
  have hcosneg : Real.cos 1.571 < 0 := by linarith [hc15.2]
  have hs15 : (0.999999 : ℝ) ≤ Real.sin 1.571 := by
    rw [← Real.cos_pi_div_two_sub]
    have h1 := one_sub_sq_div_two_le_cos (π / 2 - 1.571)
    nlinarith
  have hsin409 : (0.396 : ℝ) ≤ Real.sin 0.409 := by
    have := sin_q_lower (q := 0.409) (by norm_num) (by norm_num)
    nlinarith
  have hcos409pos : 0 < Real.cos 0.409 :=
    Real.cos_pos_of_mem_Ioo ⟨by nlinarith, by nlinarith⟩
  have htan409 : (0.396 : ℝ) ≤ Real.tan 0.409 := by
    have hcos409le : Real.cos 0.409 ≤ 1 := Real.cos_le_one _
    rw [Real.tan_eq_sin_div_cos, le_div_iff hcos409pos]
    nlinarith
  have htan15 : Real.tan 1.571 ≤ -4900 := by
    rw [Real.tan_eq_sin_div_cos, div_le_iff_of_neg hcosneg]
    nlinarith [hc15.1]
  have hprod : (1 : ℝ) < -1 * Real.tan 1.571 * Real.tan 0.409 := by
    nlinarith [htan15, htan409]
  have hsunset : TimeEntry.sunset_hour_angle e7 =
      .error (.valueError "math domain error") := by
    have hlat : e7.station.latitude_rad = 1.571 := st90_lat
    rw [TimeEntry.sunset_hour_angle, hlat, hd, pymath_acos,
      if_neg (by intro hcon; linarith [hcon.2, hprod])]
    rfl
  refine ⟨st90_init, hsunset, ?_⟩
  have hres : e7.res = Res.daily := rfl
  simp only [TimeEntry.R_a, hres]
  rw [TimeEntry.R_a_daily, hsunset]
  rfl

theorem pyround3_d409 : pyround 3 (0.409 : ℝ) = 0.409 := by
  refine pyround_of_rat (m := 409) ?_ ?_ ?_ <;> norm_num

theorem pyround3_dneg409 : pyround 3 (-0.409 : ℝ) = -0.409 := by
  refine pyround_of_rat (m := -409) ?_ ?_ ?_ <;> norm_num

theorem pyround3_d967 : pyround 3 (0.967 : ℝ) = 0.967 := by
  refine pyround_of_rat (m := 967) ?_ ?_ ?_ <;> norm_num

theorem pyround3_d1033 : pyround 3 (1.033 : ℝ) = 1.033 := by
  refine pyround_of_rat (m := 1033) ?_ ?_ ?_ <;> norm_num

theorem pyround3_d31416 : pyround 3 (3.1416 : ℝ) = 3.142 := by
  refine pyround_of_rat (m := 3142) ?_ ?_ ?_ <;> norm_num

set_option maxHeartbeats 1000000 in
/-- C7, amended: on every station the constructor actually accepts (any
latitude in [-90, 90]), WHEN the sunset hour angle is defined (the `acos`
argument lies in [-1, 1] — by `C7_counterexample` this can fail near the
poles, where the rounded latitude 1.571 exceeds π/2), it lies in
[0, 3.142] (the rounding of [0, π] to 3 decimals), and the daily
extraterrestrial radiation is then also defined and nonnegative. -/
theorem C7_amended (lat lon : ℝ) (alt : ℤ) (anem : ℝ) (tz : ℤ) (st : Station)
    (hinit : Station.init lat lon alt anem tz = .ok st) (e : TimeEntry)
    (hst : e.station = st) (hres : e.res = Res.daily)
    (w : ℝ) (hw : e.sunset_hour_angle = .ok w) :
    0 ≤ w ∧ w ≤ 3.142 ∧ ∃ ra, e.R_a = .ok ra ∧ 0 ≤ ra := by
  have hπl := Real.pi_gt_d6
  have hπu := Real.pi_lt_d6
  have hπ0 := Real.pi_pos
  -- dissect the constructor: latitude range and the stored rounded latitude
  have hstfields : -90.0 ≤ lat ∧ lat ≤ 90.0 ∧
      st.latitude_rad = pyround 3 (π / 180 * lat) := by
    rw [Station.init] at hinit
    split_ifs at hinit with h1 h2 h3 h4
    simp only [Except.ok.injEq] at hinit
    push_neg at h1
    exact ⟨h1.1, h1.2, by rw [← hinit]⟩
  obtain ⟨hlat1, hlat2, hφdef⟩ := hstfields
  -- the rounded latitude sits on the milliradian grid inside [-1.571, 1.571]
  have hφ1 : -1.571 ≤ st.latitude_rad := by
    rw [hφdef]
    have harg : -(π / 2) ≤ π / 180 * lat := by nlinarith
    have h := pyround_mono (n := 3) harg
    rw [pyround3_neg_pi_div_two] at h
    exact h
  have hφ2 : st.latitude_rad ≤ 1.571 := by
    rw [hφdef]
    have harg : π / 180 * lat ≤ π / 2 := by nlinarith
    have h := pyround_mono (n := 3) harg
    rw [pyround3_pi_div_two] at h
    exact h
  have hφabs : |st.latitude_rad| ≤ 1.571 := abs_le.mpr ⟨hφ1, hφ2⟩
  have hcosφne : Real.cos st.latitude_rad ≠ 0 := by
    have hm : st.latitude_rad = ((round ((π / 180 * lat) * 10 ^ 3) : ℤ) : ℝ) / 1000 := by
      rw [hφdef, pyround]
      norm_num
    rw [hm]
    apply cos_grid_ne_zero
    rw [← hm]
    exact hφabs
  have hcosφge : (-0.000204 : ℝ) ≤ Real.cos st.latitude_rad :=
    cos_ge_of_abs_le_1571 hφabs
  have hcosφle : Real.cos st.latitude_rad ≤ 1 := Real.cos_le_one _
  -- declination bounds
  have hδb : |e.solar_declination| ≤ 0.409 := by
    rw [TimeEntry.solar_declination, abs_le]
    constructor
    · have h := pyround_mono (n := 3)
        (show (-0.409 : ℝ) ≤ 0.409 * Real.sin (2 * π / 365 * (e.day_number : ℝ) - 1.39) by
          nlinarith [Real.neg_one_le_sin (2 * π / 365 * (e.day_number : ℝ) - 1.39)])
      rw [pyround3_dneg409] at h
      exact h
    · have h := pyround_mono (n := 3)
        (show 0.409 * Real.sin (2 * π / 365 * (e.day_number : ℝ) - 1.39) ≤ (0.409 : ℝ) by
          nlinarith [Real.sin_le_one (2 * π / 365 * (e.day_number : ℝ) - 1.39)])
      rw [pyround3_d409] at h
      exact h
  have hcosδpos : 0 < Real.cos e.solar_declination := by
    apply Real.cos_pos_of_mem_Ioo
    have := abs_le.mp hδb
    constructor
    · nlinarith [this.1]
    · nlinarith [this.2]
  have hcosδne : Real.cos e.solar_declination ≠ 0 := ne_of_gt hcosδpos
  have hcosδle : Real.cos e.solar_declination ≤ 1 := Real.cos_le_one _
  -- dissect the sunset hour angle
  have hwdef : ∃ x : ℝ,
      x = -1 * Real.tan st.latitude_rad * Real.tan e.solar_declination ∧
      -1 ≤ x ∧ x ≤ 1 ∧ w = pyround 3 (Real.arccos x) := by
    rw [TimeEntry.sunset_hour_angle, hst, pymath_acos] at hw
    split_ifs at hw with hx
    · refine ⟨_, rfl, hx.1, hx.2, ?_⟩
      simp only [Except.map, Except.ok.injEq] at hw
      exact hw.symm
    · simp [Except.map] at hw
  obtain ⟨x, hxdef, hx1, hx2, hwval⟩ := hwdef
  obtain ⟨ws, hwsdef⟩ : ∃ ws : ℝ, ws = Real.arccos x := ⟨_, rfl⟩
  rw [← hwsdef] at hwval
  have hws0 : 0 ≤ ws := hwsdef ▸ Real.arccos_nonneg x
  have hwsπ : ws ≤ π := hwsdef ▸ Real.arccos_le_pi x
  have hcosws : Real.cos ws = x := hwsdef ▸ Real.cos_arccos hx1 hx2
  -- the rounded angle lies in [0, 3.142]
  have hwlo : 0 ≤ w := by
    rw [hwval]
    apply pyround_nonneg
    nlinarith
  have hwhi : w ≤ 3.142 := by
    rw [hwval]
    have h := pyround_mono (n := 3) (show ws ≤ (3.1416 : ℝ) by nlinarith)
    rw [pyround3_d31416] at h
    exact h
  refine ⟨hwlo, hwhi, ?_⟩
  -- the daily extraterrestrial radiation
  simp only [TimeEntry.R_a, hres]
  rw [TimeEntry.R_a_daily]
  simp only [hst]
  rw [hw]
  simp only [Except.map]
  refine ⟨_, rfl, ?_⟩
  -- the trigonometric kernel is bounded below by -0.001
  have hkey : Real.sin st.latitude_rad * Real.sin e.solar_declination =
      -(x * (Real.cos st.latitude_rad * Real.cos e.solar_declination)) := by
    rw [hxdef, Real.tan_eq_sin_div_cos, Real.tan_eq_sin_div_cos]
    field_simp
  have hEeq : w * Real.sin st.latitude_rad * Real.sin e.solar_declination +
      Real.cos st.latitude_rad * Real.cos e.solar_declination * Real.sin w =
      (Real.cos st.latitude_rad * Real.cos e.solar_declination) *
        (Real.sin w - w * x) := by
    linear_combination w * hkey
  have hwws : |w - ws| ≤ 0.0005 := by
    rw [hwval]
    have h := pyround_abs_sub 3 ws
    nlinarith [h]
  have hg0 : 0 ≤ Real.sin ws - ws * Real.cos ws := sin_sub_mul_cos_nonneg hws0 hwsπ
  have hg1 : Real.sin ws - ws * Real.cos ws ≤ 1 + π := by
    nlinarith [Real.sin_le_one ws, Real.neg_one_le_cos ws,
      mul_nonneg hws0 (by linarith [Real.neg_one_le_cos ws] : (0:ℝ) ≤ 1 + Real.cos ws)]
  have hh : |(Real.sin w - w * x) - (Real.sin ws - ws * Real.cos ws)| ≤ 0.001 := by
    rw [hcosws]
    have h3 : (Real.sin w - w * x) - (Real.sin ws - ws * x) =
        (Real.sin w - Real.sin ws) - (w - ws) * x := by ring
    rw [h3]
    have h1 : |Real.sin w - Real.sin ws| ≤ |w - ws| := abs_sin_sub_sin_le w ws
    have h2 : |(w - ws) * x| ≤ |w - ws| := by
      rw [abs_mul]
      calc |w - ws| * |x| ≤ |w - ws| * 1 :=
            mul_le_mul_of_nonneg_left (abs_le.mpr ⟨hx1, hx2⟩) (abs_nonneg _)
        _ = |w - ws| := mul_one _
    calc |(Real.sin w - Real.sin ws) - (w - ws) * x| ≤
          |Real.sin w - Real.sin ws| + |(w - ws) * x| := abs_sub _ _
      _ ≤ 0.0005 + 0.0005 := add_le_add (le_trans h1 hwws) (le_trans h2 hwws)
      _ ≤ 0.001 := by norm_num
  have habs := abs_le.mp hh
  have hEbound : -0.001 ≤
      w * Real.sin st.latitude_rad * Real.sin e.solar_declination +
      Real.cos st.latitude_rad * Real.cos e.solar_declination * Real.sin w := by
    rw [hEeq]
    obtain ⟨c, hcdef⟩ : ∃ c : ℝ,
        c = Real.cos st.latitude_rad * Real.cos e.solar_declination := ⟨_, rfl⟩
    obtain ⟨v, hvdef⟩ : ∃ v : ℝ, v = Real.sin w - w * x := ⟨_, rfl⟩
    rw [← hcdef, ← hvdef]
    have hv1 : -0.001 ≤ v := by rw [hvdef]; linarith
    have hv2 : v ≤ 1 + π + 0.001 := by rw [hvdef]; linarith
    have hcle : c ≤ 1 := by
      rw [hcdef]
      nlinarith [mul_nonneg (by linarith [hcosφle] : (0:ℝ) ≤ 1 - Real.cos st.latitude_rad)
        hcosδpos.le]
    have hcge : -0.000204 ≤ c := by
      rw [hcdef]
      rcases le_or_lt 0 (Real.cos st.latitude_rad) with hcp | hcn
      · nlinarith [mul_nonneg hcp hcosδpos.le]
      · nlinarith [mul_nonneg (by linarith : (0:ℝ) ≤ -Real.cos st.latitude_rad)
          (by linarith [hcosδle] : (0:ℝ) ≤ 1 - Real.cos e.solar_declination)]
    rcases le_or_lt 0 c with hcp | hcn
    · nlinarith [mul_nonneg hcp (by linarith : (0:ℝ) ≤ v + 0.001)]
    · nlinarith [mul_nonneg (by linarith : (0:ℝ) ≤ -c)
        (by linarith : (0:ℝ) ≤ 1 + π + 0.001 - v),
        mul_nonneg (by linarith : (0:ℝ) ≤ c + 0.000204)
        (by nlinarith : (0:ℝ) ≤ 1 + π + 0.001)]
  -- the relative sun distance lies in [0.967, 1.033]
  have hd1 : 0.967 ≤ e.relative_sun_distance := by
    rw [TimeEntry.relative_sun_distance]
    have h := pyround_mono (n := 3)
      (show (0.967 : ℝ) ≤ 1 + 0.033 * Real.cos (2 * π / 365 * (e.day_number : ℝ)) by
        nlinarith [Real.neg_one_le_cos (2 * π / 365 * (e.day_number : ℝ))])
    rw [pyround3_d967] at h
    exact h
  have hd2 : e.relative_sun_distance ≤ 1.033 := by
    rw [TimeEntry.relative_sun_distance]
    have h := pyround_mono (n := 3)
      (show 1 + 0.033 * Real.cos (2 * π / 365 * (e.day_number : ℝ)) ≤ (1.033 : ℝ) by
        nlinarith [Real.cos_le_one (2 * π / 365 * (e.day_number : ℝ))])
    rw [pyround3_d1033] at h
    exact h
  -- assemble: the pre-rounding value exceeds -0.05, so the rounding is ≥ 0
  obtain ⟨E, hEdef⟩ : ∃ E : ℝ,
      E = w * Real.sin st.latitude_rad * Real.sin e.solar_declination +
        Real.cos st.latitude_rad * Real.cos e.solar_declination * Real.sin w := ⟨_, rfl⟩
  rw [← hEdef]
  rw [← hEdef] at hEbound
  apply pyround_nonneg
  have hF : -0.0011 ≤ e.relative_sun_distance * E := by
    nlinarith [mul_nonneg (by linarith : (0:ℝ) ≤ e.relative_sun_distance)
      (by linarith : (0:ℝ) ≤ E + 0.001)]
  have h10 : (24 * 60 / π * 0.0820 * e.relative_sun_distance * E) * 10 ^ 1 =
      1180.8 * (e.relative_sun_distance * E) / π := by
    field_simp
    ring
  rw [h10, le_div_iff hπ0]
  linarith [hF]

/-- C7, witness: at the equatorial station `station0` on day 81 the sunset
hour angle is 1.571 and the amended theorem yields a defined, nonnegative
daily extraterrestrial radiation. -/
theorem C7_witness :
    (0 : ℝ) ≤ 1.571 ∧ (1.571 : ℝ) ≤ 3.142 ∧
      ∃ ra, TimeEntry.R_a eDay81 = .ok ra ∧ 0 ≤ ra :=
  C7_amended 0.0 345.0 100 2 345 station0 station0_init eDay81 rfl rfl 1.571
    (sunset81 rfl rfl)

end

end Penmon
